import Mathlib

/-!
A verification development for the Kodi smart-playlist SQL compiler
(`xbmc/playlists/SmartPlayList.cpp`).  The definitions below are a shallow
embedding of the compiler: rule and combination trees, the per-rule WHERE
clause builders, the cross-entity query assembler for music media types
(`GetRolesWhereClause`, `GetAlbumsWhereClause`, `GetArtistsWhereClause`,
`GetSongsWhereClause`), and the recursive combination compiler with its
nested-playlist expansion and cycle guard.  External collaborators that are
not part of the translated sources (the database escaping layer, the
field-to-column resolver, the playlist store) are modelled from the
specification and are marked as such in their doc comments.
-/

namespace SmartPlaylistSpec

/-- Field identifiers (the subset of the global `Field` enumeration that the
smart-playlist compiler uses, from the `fields` table and the per-type field
lists in `SmartPlayList.cpp`). -/
inductive Field where
  | fieldNone
  | filename
  | path
  | album
  | albumartist
  | artist
  | trackNumber
  | role
  | comment
  | review
  | themes
  | moods
  | styles
  | albumType
  | compilation
  | musicLabel
  | title
  | sortTitle
  | originalTitle
  | year
  | time
  | playcount
  | lastPlayed
  | inProgress
  | rating
  | userRating
  | votes
  | top250
  | mpaa
  | dateAdded
  | genre
  | plot
  | plotOutline
  | tagline
  | fieldSet
  | director
  | actor
  | writer
  | airDate
  | trailer
  | studio
  | country
  | tvShowTitle
  | tvShowStatus
  | season
  | episodeNumber
  | numberOfEpisodes
  | numberOfWatchedEpisodes
  | videoResolution
  | videoCodec
  | videoAspect
  | audioChannels
  | audioCodec
  | audioLanguage
  | audioCount
  | subtitleCount
  | subtitleLanguage
  | random
  | playlist
  | virtualFolder
  | tag
  | instruments
  | biography
  | born
  | bandFormed
  | disbanded
  | died
  | artistType
  | gender
  | disambiguation
  | source
  | discTitle
  | isBoxset
  | totalDiscs
  | fieldId
  deriving DecidableEq, Repr

/-- Search operators (`CDatabaseQueryRule::SEARCH_OPERATOR`). -/
inductive SearchOperator where
  | contains
  | doesNotContain
  | equals
  | doesNotEqual
  | startsWith
  | endsWith
  | greaterThan
  | lessThan
  | after
  | before
  | inTheLast
  | notInTheLast
  | opTrue
  | opFalse
  | between
  deriving DecidableEq, Repr

/-- Value types of fields (`CDatabaseQueryRule::FIELD_TYPE`). -/
inductive FieldType where
  | text
  | numeric
  | date
  | playlistType
  | seconds
  | boolean
  | textin
  | real
  deriving DecidableEq, Repr

/-- The boolean combinator of a rule combination
(`CDatabaseQueryRuleCombination::Combination`). -/
inductive CombinationType where
  | combAnd
  | combOr
  deriving DecidableEq, Repr

/-- A single smart-playlist rule: field, operator and the ordered list of
string parameters (`CSmartPlaylistRule`). -/
structure Rule where
  field : Field
  op : SearchOperator
  parameter : List String
  deriving DecidableEq, Repr

/-- A rule combination: a combinator over child combinations and child rules
(`CSmartPlaylistRuleCombination`). -/
inductive RuleCombination where
  | mk (ctype : CombinationType) (combinations : List RuleCombination)
       (rules : List Rule)

/-- The combinator of a combination node. -/
def RuleCombination.ctype : RuleCombination → CombinationType
  | .mk t _ _ => t

/-- The child combinations of a combination node. -/
def RuleCombination.combinations : RuleCombination → List RuleCombination
  | .mk _ cs _ => cs

/-- The child rules of a combination node. -/
def RuleCombination.rules : RuleCombination → List Rule
  | .mk _ _ rs => rs

/-- A smart playlist: name, media type and root rule combination
(`CSmartPlaylist`, restricted to the state the WHERE-clause compiler reads). -/
structure SmartPlaylist where
  name : String
  mediaType : String
  rules : RuleCombination

/-- The character code with an upper-case ASCII letter folded to lower
case. -/
def charLowerNat (c : Char) : Nat :=
  if 65 ≤ c.toNat && c.toNat ≤ 90 then c.toNat + 32 else c.toNat

/-- Case-insensitive string equality (`StringUtils::EqualsNoCase`). -/
def eqNoCase (a b : String) : Bool :=
  a.data.map charLowerNat == b.data.map charLowerNat

/-- Replace every occurrence of `pat` in a character list, left to right
and non-overlapping; the fuel argument (instantiated with the list length)
makes the recursion structural. -/
def replaceChars (pat rep : List Char) : Nat → List Char → List Char
  | _, [] => []
  | 0, l => l
  | Nat.succ fuel, c :: rest =>
    if pat.isPrefixOf (c :: rest) && !pat.isEmpty then
      rep ++ replaceChars pat rep fuel (List.drop (pat.length - 1) rest)
    else
      c :: replaceChars pat rep fuel rest

/-- Modelled from the spec: `StringUtils::Replace` - replace every
occurrence of `pat` in `s` by `rep`. -/
def strReplace (s pat rep : String) : String :=
  String.mk (replaceChars pat.data rep.data s.data.length s.data)

/-- Whether `pat` occurs as a contiguous sublist. -/
def hasSubstrList (pat : List Char) : List Char → Bool
  | [] => pat.isEmpty
  | c :: rest => pat.isPrefixOf (c :: rest) || hasSubstrList pat rest

/-- Split a character list at a separator character. -/
def splitOnChar (sep : Char) (l : List Char) : List (List Char) :=
  l.foldr
    (fun c acc =>
      match acc with
      | [] => if c == sep then [[], []] else [[c]]
      | g :: gs => if c == sep then [] :: g :: gs else (c :: g) :: gs)
    [[]]

/-- Join a list of SQL fragments with a separator (the spec-side shape of
an OR- or AND-joined clause list). -/
def joinSep (sep : String) : List String → String
  | [] => ""
  | [s] => s
  | s :: rest => s ++ sep ++ joinSep sep rest

/-- Substring occurrence test: whether `pat` occurs in `s`. -/
def mentionsSub (s pat : String) : Bool :=
  hasSubstrList pat.data s.data

/-- Value of a list of decimal digits. -/
def digitsVal (l : List Char) : Nat :=
  l.foldl (fun a c => a * 10 + (c.toNat - 48)) 0

/-- Modelled from the spec: `std::strtol(.., NULL, 10)` as used by
`GetVideoResolutionQuery` - an optional sign followed by the leading run of
decimal digits; `0` when the string has no leading number. -/
def strtolModel (s : String) : Int :=
  match s.toList with
  | '-' :: t => -(Int.ofNat (digitsVal (t.takeWhile Char.isDigit)))
  | '+' :: t => Int.ofNat (digitsVal (t.takeWhile Char.isDigit))
  | t => Int.ofNat (digitsVal (t.takeWhile Char.isDigit))

/-- `INT_MAX` of the 32-bit `int` used by `GetVideoResolutionQuery`. -/
def intMax : Int := 2147483647

/-- The width band selected from the numeric parameter by
`CSmartPlaylistRule::GetVideoResolutionQuery` (lines 716-725). -/
def videoResolutionBand (iRes : Int) : Int × Int :=
  if iRes ≥ 2160 then (1921, intMax)
  else if iRes ≥ 1080 then (1281, 1920)
  else if iRes ≥ 720 then (961, 1280)
  else if iRes ≥ 540 then (721, 960)
  else (0, 720)

/-- `CSmartPlaylistRule::GetVideoResolutionQuery` - the rule's operator is
`op`, the parameter string is `parameter`. -/
def getVideoResolutionQuery (op : SearchOperator) (parameter : String) :
    String :=
  let iRes := strtolModel parameter
  let mm := videoResolutionBand iRes
  let body :=
    match op with
    | .equals =>
        ">= " ++ toString mm.1 ++ " AND iVideoWidth <= " ++ toString mm.2
    | .doesNotEqual =>
        "< " ++ toString mm.1 ++ " OR iVideoWidth > " ++ toString mm.2
    | .lessThan => "< " ++ toString mm.1
    | .greaterThan => "> " ++ toString mm.2
    | _ => ""
  " IN (SELECT DISTINCT idFile FROM streamdetails WHERE iVideoWidth " ++
    body ++ ")"

/-- `CSmartPlaylistRule::GetFields` - the ordered list of fields offered for
each media type (lines 297-501 of `SmartPlayList.cpp`). -/
def getFields (type : String) : List Field :=
  let main : List Field × Bool :=
    if type == "mixed" then
      ([.genre, .album, .artist, .albumartist, .title, .originalTitle, .year,
        .time, .trackNumber, .filename, .path, .playcount, .lastPlayed],
       false)
    else if type == "songs" then
      ([.genre, .source, .album, .discTitle, .artist, .albumartist, .title,
        .year, .time, .trackNumber, .filename, .path, .playcount, .lastPlayed,
        .rating, .userRating, .comment, .moods], false)
    else if type == "albums" then
      ([.genre, .source, .album, .discTitle, .totalDiscs, .isBoxset, .artist,
        .albumartist, .year, .review, .themes, .moods, .styles, .compilation,
        .albumType, .musicLabel, .rating, .userRating, .playcount,
        .lastPlayed, .path], false)
    else if type == "artists" then
      ([.artist, .source, .genre, .moods, .styles, .instruments, .biography,
        .artistType, .gender, .disambiguation, .born, .bandFormed, .disbanded,
        .died, .role, .path, .time], false)
    else if type == "tvshows" then
      ([.title, .originalTitle, .plot, .tvShowStatus, .votes, .rating,
        .userRating, .year, .genre, .director, .actor, .numberOfEpisodes,
        .numberOfWatchedEpisodes, .playcount, .path, .studio, .mpaa,
        .dateAdded, .lastPlayed, .inProgress, .tag], false)
    else if type == "episodes" then
      ([.title, .tvShowTitle, .originalTitle, .plot, .votes, .rating,
        .userRating, .time, .writer, .airDate, .playcount, .lastPlayed,
        .inProgress, .genre, .year, .director, .actor, .episodeNumber,
        .season, .filename, .path, .studio, .mpaa, .dateAdded, .tag], true)
    else if type == "movies" then
      ([.title, .originalTitle, .plot, .plotOutline, .tagline, .votes,
        .rating, .userRating, .time, .writer, .playcount, .lastPlayed,
        .inProgress, .genre, .country, .year, .director, .actor, .mpaa,
        .top250, .studio, .trailer, .filename, .path, .fieldSet, .tag,
        .dateAdded], true)
    else if type == "musicvideos" then
      ([.title, .genre, .album, .year, .artist, .filename, .path, .playcount,
        .lastPlayed, .rating, .userRating, .time, .director, .studio, .plot,
        .tag, .dateAdded], true)
    else ([], false)
  let videoFields : List Field :=
    [.videoResolution, .audioChannels, .audioCount, .subtitleCount,
     .videoCodec, .audioCodec, .audioLanguage, .subtitleLanguage,
     .videoAspect]
  main.1 ++ (if main.2 then videoFields else []) ++ [.playlist, .virtualFolder]

/-- `CSmartPlaylistRule::GetFieldType` - value type per field, from the
static `fields` table (lines 46-144); fields absent from the table default
to `TEXT_FIELD`. -/
def getFieldType (f : Field) : FieldType :=
  match f with
  | .trackNumber => .numeric
  | .year => .numeric
  | .time => .seconds
  | .playcount => .numeric
  | .lastPlayed => .date
  | .inProgress => .boolean
  | .rating => .real
  | .userRating => .real
  | .votes => .real
  | .top250 => .numeric
  | .dateAdded => .date
  | .airDate => .date
  | .trailer => .boolean
  | .compilation => .boolean
  | .season => .numeric
  | .episodeNumber => .numeric
  | .numberOfEpisodes => .real
  | .numberOfWatchedEpisodes => .real
  | .videoResolution => .real
  | .videoCodec => .textin
  | .videoAspect => .real
  | .audioChannels => .real
  | .audioCodec => .textin
  | .audioLanguage => .textin
  | .audioCount => .real
  | .subtitleCount => .real
  | .subtitleLanguage => .textin
  | .playlist => .playlistType
  | .virtualFolder => .playlistType
  | .isBoxset => .boolean
  | .totalDiscs => .numeric
  | _ => .text

/-- Media types (`MediaType` string tags, as a closed enumeration). -/
inductive MediaType where
  | mtNone
  | music
  | artist
  | album
  | song
  | movie
  | tvshow
  | episode
  | musicVideo
  deriving DecidableEq, Repr

/-- Modelled from the spec: `CMediaTypes::FromString` - maps the playlist
media-type tag (singular or plural) to the media-type enumeration, with
unknown tags (including "mixed") mapping to the none value. -/
def mediaTypeFromString (s : String) : MediaType :=
  if s == "song" || s == "songs" then .song
  else if s == "album" || s == "albums" then .album
  else if s == "artist" || s == "artists" then .artist
  else if s == "movie" || s == "movies" then .movie
  else if s == "tvshow" || s == "tvshows" then .tvshow
  else if s == "episode" || s == "episodes" then .episode
  else if s == "musicvideo" || s == "musicvideos" then .musicVideo
  else if s == "music" then .music
  else .mtNone

/-- Modelled from the spec: the native-column resolver collaborator
(`DatabaseUtils::GetField(field, mediaType, DatabaseQueryPartWhere)`), §6 of
the spec: "given (Field, media type, clause position), returns the
column/table-qualified name to use, or empty if the field has no direct
column for that media type".  Only the (field, media type) pairs the
compiler exercises in this development are populated; every other pair
resolves to the empty string. -/
def dbGetField (f : Field) (m : MediaType) : String :=
  match m, f with
  | .song, .title => "songview.strTitle"
  | .song, .album => "songview.strAlbum"
  | .song, .genre => "songview.strGenres"
  | .song, .artist => "songview.strArtists"
  | .song, .albumartist => "songview.strAlbumArtists"
  | .song, .year => "songview.iYear"
  | .song, .time => "songview.iDuration"
  | .song, .trackNumber => "songview.iTrack"
  | .song, .filename => "songview.strFileName"
  | .song, .path => "songview.strPath"
  | .song, .playcount => "songview.iTimesPlayed"
  | .song, .lastPlayed => "songview.lastplayed"
  | .song, .rating => "songview.rating"
  | .song, .userRating => "songview.userrating"
  | .song, .comment => "songview.comment"
  | .song, .moods => "songview.mood"
  | .song, .discTitle => "songview.strDiscSubtitle"
  | .song, .fieldId => "songview.idSong"
  | .album, .album => "albumview.strAlbum"
  | .album, .artist => "albumview.strArtists"
  | .album, .albumartist => "albumview.strArtists"
  | .album, .year => "albumview.iYear"
  | .album, .review => "albumview.strReview"
  | .album, .themes => "albumview.strThemes"
  | .album, .moods => "albumview.strMoods"
  | .album, .styles => "albumview.strStyles"
  | .album, .albumType => "albumview.strType"
  | .album, .musicLabel => "albumview.strLabel"
  | .album, .rating => "albumview.fRating"
  | .album, .userRating => "albumview.iUserrating"
  | .album, .playcount => "albumview.iTimesPlayed"
  | .album, .lastPlayed => "albumview.lastplayed"
  | .album, .totalDiscs => "albumview.iDiscTotal"
  | .album, .fieldId => "albumview.idAlbum"
  | .artist, .artist => "artistview.strArtist"
  | .artist, .artistType => "artistview.strType"
  | .artist, .gender => "artistview.strGender"
  | .artist, .disambiguation => "artistview.strDisambiguation"
  | .artist, .born => "artistview.strBorn"
  | .artist, .bandFormed => "artistview.strFormed"
  | .artist, .disbanded => "artistview.strDisbanded"
  | .artist, .died => "artistview.strDied"
  | .artist, .biography => "artistview.strBiography"
  | .artist, .instruments => "artistview.strInstruments"
  | .artist, .moods => "artistview.strMoods"
  | .artist, .styles => "artistview.strStyles"
  | .artist, .fieldId => "artistview.idArtist"
  | .music, .genre => "genre.strGenre"
  | .music, .source => "source.strName"
  | .music, .role => "role.strRole"
  | .music, .path => "path.strPath"
  | .movie, .title => "movie_view.c00"
  | .movie, .playcount => "movie_view.playCount"
  | .movie, .lastPlayed => "movie_view.lastPlayed"
  | .movie, .dateAdded => "movie_view.dateAdded"
  | .movie, .year => "movie_view.premiered"
  | .movie, .mpaa => "movie_view.c12"
  | .movie, .fieldId => "movie_view.idMovie"
  | .tvshow, .title => "tvshow_view.c00"
  | .tvshow, .playcount => "tvshow_view.watchedcount"
  | .tvshow, .lastPlayed => "tvshow_view.lastPlayed"
  | .tvshow, .dateAdded => "tvshow_view.dateAdded"
  | .tvshow, .mpaa => "tvshow_view.c13"
  | .tvshow, .numberOfEpisodes => "tvshow_view.totalCount"
  | .tvshow, .numberOfWatchedEpisodes => "tvshow_view.watchedcount"
  | .tvshow, .fieldId => "tvshow_view.idShow"
  | .episode, .title => "episode_view.c00"
  | .episode, .playcount => "episode_view.playCount"
  | .episode, .lastPlayed => "episode_view.lastPlayed"
  | .episode, .dateAdded => "episode_view.dateAdded"
  | .episode, .mpaa => "episode_view.mpaa"
  | .episode, .fieldId => "episode_view.idEpisode"
  | .musicVideo, .title => "musicvideo_view.c00"
  | .musicVideo, .playcount => "musicvideo_view.playCount"
  | .musicVideo, .lastPlayed => "musicvideo_view.lastPlayed"
  | .musicVideo, .dateAdded => "musicvideo_view.dateAdded"
  | .musicVideo, .album => "musicvideo_view.c05"
  | .musicVideo, .fieldId => "musicvideo_view.idMVideo"
  | _, _ => ""

/-- Modelled from the spec: `DatabaseUtils::GetNativeTable` - the table a
field is a direct column of, relative to a music media type, used by the
cross-entity assembler to partition rules (song-level, album-level,
artist-level).  Only the pairs the assembler consults are populated. -/
def dbGetNativeTable (f : Field) (m : MediaType) : String :=
  match m, f with
  | .album, .artist => "artist"
  | .album, .albumartist => "artist"
  | .album, .genre => "song"
  | .album, .title => "song"
  | .album, .time => "song"
  | .artist, .genre => "song"
  | .artist, .time => "song"
  | .artist, .title => "song"
  | .artist, .album => "album"
  | .artist, .albumType => "album"
  | .artist, .musicLabel => "album"
  | _, _ => ""

/-- `CSmartPlaylist::CheckTypeCompatibility`. -/
def checkTypeCompatibility (typeLeft typeRight : String) : Bool :=
  if typeLeft == typeRight then true
  else if typeLeft == "mixed" &&
          (typeRight == "songs" || typeRight == "musicvideos") then true
  else if typeRight == "mixed" &&
          (typeLeft == "songs" || typeLeft == "musicvideos") then true
  else false

/-- Modelled from the spec: `CDatabase::ExistsSubQuery::AppendWhere` -
appends a condition to the WHERE part, AND-combined with what is there. -/
def appendWhere (whereStr clause : String) : String :=
  if clause == "" then whereStr
  else if whereStr == "" then clause
  else whereStr ++ " AND " ++ clause

/-- Modelled from the spec: `CDatabase::ExistsSubQuery::AppendJoin`. -/
def appendJoin (joinStr clause : String) : String :=
  if clause == "" then joinStr
  else if joinStr == "" then clause
  else joinStr ++ " " ++ clause

/-- Modelled from the spec: `CDatabase::ExistsSubQuery::BuildSQL` - the
correlated `EXISTS (SELECT 1 FROM <table> <joins> WHERE <correlation> AND
<conditions>)` template of §4.2 of the spec. -/
def buildExists (tablename param joinStr whereStr : String) : String :=
  "EXISTS (SELECT 1 FROM " ++ tablename ++
    (if joinStr == "" then "" else " " ++ joinStr) ++
    (if param == "" then "" else " WHERE " ++ param) ++
    (if whereStr == "" then ""
     else (if param == "" then " WHERE " else " AND ") ++ whereStr) ++ ")"

/-- Modelled from the spec: the operator template strings of the parameter
escaping collaborator (`CDatabaseQueryRule::GetOperatorString`); `%s` marks
where the (escaped) parameter value is substituted.  Text values are quoted,
numeric-kind values are not. -/
def getOperatorString (op : SearchOperator) (ft : FieldType) : String :=
  let numericKind : Bool := ft == .numeric || ft == .seconds || ft == .real
  match op with
  | .contains => " LIKE \x27%%s%\x27"
  | .doesNotContain => " LIKE \x27%%s%\x27"
  | .equals => if numericKind then " = %s" else " LIKE \x27%s\x27"
  | .doesNotEqual => if numericKind then " != %s" else " LIKE \x27%s\x27"
  | .startsWith => " LIKE \x27%s%\x27"
  | .endsWith => " LIKE \x27%%s\x27"
  | .greaterThan => " > %s"
  | .lessThan => " < %s"
  | .after => " > \x27%s\x27"
  | .before => " < \x27%s\x27"
  | .inTheLast => " >= \x27%s\x27"
  | .notInTheLast => " < \x27%s\x27"
  | _ => ""

/-- Modelled from the spec: `CDatabase::PrepareSQL` applied to one operator
template and one value - substitutes the value for the `%s` marker (the
escaping of the value itself is elided; date-window values are taken to be
already converted to absolute dates). -/
def prepareSQLParam (operatorString param : String) : String :=
  strReplace operatorString "%s" param

/-- Modelled from the spec: `StringUtils::TimeStringToSeconds` - converts a
clock string such as "hh:mm:ss" or "mm:ss" to seconds. -/
def timeStringToSecondsModel (s : String) : Nat :=
  ((splitOnChar ':' s.data).map
    (fun p => digitsVal (p.takeWhile Char.isDigit))).foldl
    (fun a v => a * 60 + v) 0

/-- `CSmartPlaylistRule::GetField` (lines 1085-1090): resolve a field to its
column for a media-type tag, via the resolver collaborator. -/
def smartGetField (f : Field) (type : String) : String :=
  dbGetField f (mediaTypeFromString type)

/-- `CSmartPlaylistRule::FormatParameter` (lines 891-900): the "time" field
converts its clock-string parameter to seconds; every other field uses the
base formatting (modelled, `CDatabaseQueryRule::FormatParameter`). -/
def formatParameter (r : Rule) (operatorString param _strType : String) :
    String :=
  if r.field == .time then
    prepareSQLParam operatorString (toString (timeStringToSecondsModel param))
  else
    prepareSQLParam operatorString param

/-- `CSmartPlaylistRule::FormatLinkQuery` (lines 902-909). -/
def formatLinkQuery (field table mediaType mediaField parameter : String) :
    String :=
  " EXISTS (SELECT 1 FROM " ++ field ++ "_link" ++
    "         JOIN " ++ table ++ " ON " ++ table ++ "." ++ table ++ "_id=" ++
    field ++ "_link." ++ field ++ "_id" ++
    "         WHERE " ++ field ++ "_link.media_id=" ++ mediaField ++ " AND " ++
    table ++ ".name " ++ parameter ++ " AND " ++ field ++
    "_link.media_type = \x27" ++ mediaType ++ "\x27)"

/-- Modelled from the spec: the generic fallback clause of the base
`CDatabaseQueryRule::FormatWhereClause` - `<columnName> <negate>
<formattedParameter>` (§4.2 step 6 of the spec; boolean-operator rules are
not modelled, no claim concerns them). -/
def baseFormatWhereClause (r : Rule) (negate oper param strType : String) :
    String :=
  let parameter := formatParameter r oper param strType
  smartGetField r.field strType ++ negate ++ parameter

/-- `CSmartPlaylistRule::FormatWhereClause` (lines 911-1083), the per-media
type special cases followed by the stream-details fields, the playcount
NULL-rewrite and the generic fallback. -/
def formatWhereClause (r : Rule) (negate oper param strType : String) :
    String :=
  let parameter := formatParameter r oper param strType
  let table :=
    if strType == "songs" then "songview"
    else if strType == "albums" then "albumview"
    else if strType == "artists" then "artistview"
    else if strType == "movies" then "movie_view"
    else if strType == "musicvideos" then "musicvideo_view"
    else if strType == "tvshows" then "tvshow_view"
    else if strType == "episodes" then "episode_view"
    else ""
  let nullDateOp : Bool :=
    r.op == .lessThan || r.op == .before || r.op == .notInTheLast
  let query :=
    if strType == "songs" then
      if r.field == .lastPlayed && nullDateOp then
        smartGetField r.field strType ++ " is NULL or " ++
          smartGetField r.field strType ++ parameter
      else ""
    else if strType == "albums" then
      if r.field == .lastPlayed && nullDateOp then
        smartGetField r.field strType ++ " is NULL or " ++
          smartGetField r.field strType ++ parameter
      else if r.field == .discTitle then
        negate ++ " EXISTS (SELECT 1 FROM song WHERE song.idAlbum = " ++
          smartGetField .fieldId strType ++ " AND song.strDiscSubtitle" ++
          parameter ++ ")"
      else ""
    else if strType == "artists" then ""
    else if strType == "movies" then
      if r.field == .genre then
        negate ++ formatLinkQuery "genre" "genre" "movie"
          (smartGetField .fieldId strType) parameter
      else if r.field == .director then
        negate ++ formatLinkQuery "director" "actor" "movie"
          (smartGetField .fieldId strType) parameter
      else if r.field == .actor then
        negate ++ formatLinkQuery "actor" "actor" "movie"
          (smartGetField .fieldId strType) parameter
      else if r.field == .writer then
        negate ++ formatLinkQuery "writer" "actor" "movie"
          (smartGetField .fieldId strType) parameter
      else if r.field == .studio then
        negate ++ formatLinkQuery "studio" "studio" "movie"
          (smartGetField .fieldId strType) parameter
      else if r.field == .country then
        negate ++ formatLinkQuery "country" "country" "movie"
          (smartGetField .fieldId strType) parameter
      else if (r.field == .lastPlayed || r.field == .dateAdded) &&
          nullDateOp then
        smartGetField r.field strType ++ " IS NULL OR " ++
          smartGetField r.field strType ++ parameter
      else if r.field == .tag then
        negate ++ formatLinkQuery "tag" "tag" "movie"
          (smartGetField .fieldId strType) parameter
      else ""
    else if strType == "musicvideos" then
      if r.field == .genre then
        negate ++ formatLinkQuery "genre" "genre" "musicvideo"
          (smartGetField .fieldId strType) parameter
      else if r.field == .artist || r.field == .albumartist then
        negate ++ formatLinkQuery "actor" "actor" "musicvideo"
          (smartGetField .fieldId strType) parameter
      else if r.field == .studio then
        negate ++ formatLinkQuery "studio" "studio" "musicvideo"
          (smartGetField .fieldId strType) parameter
      else if r.field == .director then
        negate ++ formatLinkQuery "director" "actor" "musicvideo"
          (smartGetField .fieldId strType) parameter
      else if (r.field == .lastPlayed || r.field == .dateAdded) &&
          nullDateOp then
        smartGetField r.field strType ++ " IS NULL OR " ++
          smartGetField r.field strType ++ parameter
      else if r.field == .tag then
        negate ++ formatLinkQuery "tag" "tag" "musicvideo"
          (smartGetField .fieldId strType) parameter
      else ""
    else if strType == "tvshows" then
      if r.field == .genre then
        negate ++ formatLinkQuery "genre" "genre" "tvshow"
          (smartGetField .fieldId strType) parameter
      else if r.field == .director then
        negate ++ formatLinkQuery "director" "actor" "tvshow"
          (smartGetField .fieldId strType) parameter
      else if r.field == .actor then
        negate ++ formatLinkQuery "actor" "actor" "tvshow"
          (smartGetField .fieldId strType) parameter
      else if r.field == .studio then
        negate ++ formatLinkQuery "studio" "studio" "tvshow"
          (smartGetField .fieldId strType) parameter
      else if r.field == .mpaa then
        negate ++ " (" ++ smartGetField r.field strType ++ parameter ++ ")"
      else if (r.field == .lastPlayed || r.field == .dateAdded) &&
          nullDateOp then
        smartGetField r.field strType ++ " IS NULL OR " ++
          smartGetField r.field strType ++ parameter
      else if r.field == .playcount then
        "CASE WHEN COALESCE(" ++
          smartGetField .numberOfEpisodes strType ++ " - " ++
          smartGetField .numberOfWatchedEpisodes strType ++
          ", 0) > 0 THEN 0 ELSE 1 END " ++ parameter
      else if r.field == .tag then
        negate ++ formatLinkQuery "tag" "tag" "tvshow"
          (smartGetField .fieldId strType) parameter
      else ""
    else if strType == "episodes" then
      if r.field == .genre then
        negate ++ formatLinkQuery "genre" "genre" "tvshow"
          (table ++ ".idShow") parameter
      else if r.field == .tag then
        negate ++ formatLinkQuery "tag" "tag" "tvshow"
          (table ++ ".idShow") parameter
      else if r.field == .director then
        negate ++ formatLinkQuery "director" "actor" "episode"
          (smartGetField .fieldId strType) parameter
      else if r.field == .actor then
        negate ++ formatLinkQuery "actor" "actor" "episode"
          (smartGetField .fieldId strType) parameter
      else if r.field == .writer then
        negate ++ formatLinkQuery "writer" "actor" "episode"
          (smartGetField .fieldId strType) parameter
      else if (r.field == .lastPlayed || r.field == .dateAdded) &&
          nullDateOp then
        smartGetField r.field strType ++ " IS NULL OR " ++
          smartGetField r.field strType ++ parameter
      else if r.field == .studio then
        negate ++ formatLinkQuery "studio" "studio" "tvshow"
          (table ++ ".idShow") parameter
      else if r.field == .mpaa then
        negate ++ " (" ++ smartGetField r.field strType ++ parameter ++ ")"
      else ""
    else ""
  let query :=
    if r.field == .videoResolution then
      table ++ ".idFile" ++ negate ++ getVideoResolutionQuery r.op param
    else if r.field == .audioChannels then
      negate ++ " EXISTS (SELECT 1 FROM streamdetails WHERE " ++
        "streamdetails.idFile = " ++ table ++ ".idFile AND iAudioChannels " ++
        parameter ++ ")"
    else if r.field == .videoCodec then
      negate ++ " EXISTS (SELECT 1 FROM streamdetails WHERE " ++
        "streamdetails.idFile = " ++ table ++ ".idFile AND strVideoCodec " ++
        parameter ++ ")"
    else if r.field == .audioCodec then
      negate ++ " EXISTS (SELECT 1 FROM streamdetails WHERE " ++
        "streamdetails.idFile = " ++ table ++ ".idFile AND strAudioCodec " ++
        parameter ++ ")"
    else if r.field == .audioLanguage then
      negate ++ " EXISTS (SELECT 1 FROM streamdetails WHERE " ++
        "streamdetails.idFile = " ++ table ++
        ".idFile AND strAudioLanguage " ++ parameter ++ ")"
    else if r.field == .subtitleLanguage then
      negate ++ " EXISTS (SELECT 1 FROM streamdetails WHERE " ++
        "streamdetails.idFile = " ++ table ++
        ".idFile AND strSubtitleLanguage " ++ parameter ++ ")"
    else if r.field == .videoAspect then
      negate ++ " EXISTS (SELECT 1 FROM streamdetails WHERE " ++
        "streamdetails.idFile = " ++ table ++ ".idFile AND fVideoAspect " ++
        parameter ++ ")"
    else if r.field == .audioCount then
      negate ++ " EXISTS (SELECT 1 FROM streamdetails WHERE " ++
        "streamdetails.idFile = " ++ table ++
        ".idFile AND streamdetails.iStreamtype = 1 GROUP BY " ++
        "streamdetails.idFile HAVING COUNT(streamdetails.iStreamType) " ++
        parameter ++ ")"
    else if r.field == .subtitleCount then
      negate ++ " EXISTS (SELECT 1 FROM streamdetails WHERE " ++
        "streamdetails.idFile = " ++ table ++
        ".idFile AND streamdetails.iStreamType = 2 GROUP BY " ++
        "streamdetails.idFile HAVING COUNT(streamdetails.iStreamType) " ++
        parameter ++ ")"
    else query
  let query :=
    if r.field == .playcount && strType != "songs" && strType != "albums" &&
        strType != "tvshows" &&
        ((r.op == .equals && param == "0") ||
         (r.op == .doesNotEqual && param != "0") || r.op == .lessThan) then
      smartGetField .playcount strType ++ " IS NULL OR " ++
        smartGetField .playcount strType ++ parameter
    else query
  if query == "" then baseFormatWhereClause r negate oper param strType
  else query

/-- `CSmartPlaylistRule::FormatParameters` (lines 797-889): multi-valued
genre parameters on "songs" (and source parameters on "albums") are gathered
into one EXISTS subquery OR-joined when affirmative, or AND-joined as
separate negated EXISTS subqueries when negated; everything else falls back
to the base iteration (modelled). -/
def specialExistsQuery (r : Rule) (negate oper tablename param joinStr :
    String) : String :=
  let wholeQuery := r.parameter.foldl
    (fun acc p =>
      let clause := formatWhereClause r "" oper p "music"
      if negate == "" then
        if acc == "" then clause else acc ++ " OR " ++ clause
      else
        let c := negate ++ buildExists tablename param joinStr clause
        if acc == "" then c else acc ++ " AND " ++ c) ""
  if negate == "" && wholeQuery != "" then
    buildExists tablename param joinStr
      (if r.parameter.length > 1 then "(" ++ wholeQuery ++ ")"
       else wholeQuery)
  else wholeQuery

/-- `CSmartPlaylistRule::FormatParameters` (lines 797-889), continued:
dispatch to the genre/source gathering and otherwise fall back to the base
iteration (modelled). -/
def formatParameters (r : Rule) (negate oper strType : String) : String :=
  let wholeQuery :=
    if strType == "songs" then
      if r.field == .genre then
        specialExistsQuery r negate oper "song_genre"
          "song_genre.idSong = songview.idSong"
          "JOIN genre ON genre.idGenre = song_genre.idGenre"
      else ""
    else if strType == "albums" then
      if r.field == .source then
        specialExistsQuery r negate oper "album_source"
          "album_source.idAlbum = albumview.idAlbum"
          "JOIN source ON album_source.idSource = source.idSource"
      else ""
    else ""
  if wholeQuery == "" then
    match r.parameter with
    | [p] => formatWhereClause r negate oper p strType
    | ps =>
        joinSep (if negate == "" then " OR " else " AND ")
          (ps.map (fun p =>
            "(" ++ formatWhereClause r negate oper p strType ++ ")"))
  else wholeQuery

/-- `CSmartPlaylistRule::GetOperator` (lines 783-795): the year field on
tvshows/episodes is a premiered date, so equality becomes containment. -/
def smartGetOperator (r : Rule) (strType : String) : SearchOperator :=
  if (strType == "tvshows" || strType == "episodes") && r.field == .year then
    if r.op == .equals then .contains
    else if r.op == .doesNotEqual then .doesNotContain
    else r.op
  else r.op

/-- Modelled from the spec: the base `CDatabaseQueryRule::GetWhereClause` -
computes the operator template and the negation marker and delegates to the
(overridden) `FormatParameters`; boolean-operator rules are not modelled (no
claim concerns them). -/
def ruleGetWhereClause (r : Rule) (strType : String) : String :=
  let op := smartGetOperator r strType
  let operatorString := getOperatorString op (getFieldType r.field)
  let ft := getFieldType r.field
  let negate :=
    if op == .doesNotContain ||
       (op == .doesNotEqual && ft != .numeric && ft != .seconds &&
        ft != .real) then " NOT"
    else ""
  formatParameters r negate operatorString strType

/-- `CSmartPlaylistRuleCombination::CombineClause` (lines 1841-1857): append
a clause to an accumulated WHERE string with the node's combinator,
parenthesizing the appended clause. -/
def combineClause (ctype : CombinationType) (original clause : String) :
    String :=
  if clause == "" then original
  else if original == "" then clause
  else
    original ++ (if ctype == .combAnd then " AND " else " OR ") ++ "(" ++
      clause ++ ")"

/-- `CSmartPlaylistRuleCombination::IsFieldNative` (lines 1832-1839). -/
def isFieldNative (f : Field) (m : MediaType) (strTable : String) : Bool :=
  let t := dbGetNativeTable f m
  t != "" && t == strTable

/-- `CSmartPlaylistRuleCombination::IsFieldRuleSimple` (lines 1801-1830):
whether a rule can be compiled on its own against the media type's primary
view, or must be handed to the cross-entity assembler. -/
def isFieldRuleSimple (f : Field) (m : MediaType) : Bool :=
  if f == .fieldNone || m == .mtNone then true
  else if m != .artist && m != .album && m != .song then true
  else if m == .album && (f == .artist || f == .albumartist) then false
  else if m == .album && f == .source then true
  else if m == .song && (f == .artist || f == .albumartist) then false
  else dbGetField f m != ""

/-- Whether a search operator counts as a negation in the role-rule scan
(lines 1207-1209, 1215-1216). -/
def isNegOp (op : SearchOperator) : Bool :=
  op == .doesNotContain || op == .doesNotEqual

/-- The booleans gathered by the role-rule scan loop of
`GetRolesWhereClause` (lines 1187-1223), plus the named role rules. -/
structure RoleScan where
  wild : Bool
  aaRule : Bool
  aRule : Bool
  negAA : Bool
  negA : Bool
  anyRole : Bool
  named : List Rule
  deriving DecidableEq, Repr

/-- One step of the role-rule scan loop (lines 1196-1223). -/
def scanRoleStep (ctype : CombinationType) (s : RoleScan) (r : Rule) :
    RoleScan :=
  if r.field == .role then
    let v := r.parameter.headD ""
    if eqNoCase v "albumartist" then
      ⟨s.wild, ctype == .combAnd, s.aRule, isNegOp r.op, s.negA, true,
       s.named⟩
    else if eqNoCase v "artist" then
      ⟨s.wild, s.aaRule, ctype == .combAnd, s.negAA, isNegOp r.op, true,
       s.named⟩
    else if eqNoCase v "%" then
      ⟨true, s.aaRule, s.aRule, s.negAA, s.negA, true, s.named⟩
    else
      ⟨s.wild, s.aaRule, s.aRule, s.negAA, s.negA, true, s.named ++ [r]⟩
  else s

/-- The role-rule scan of `GetRolesWhereClause` over a rule group. -/
def scanRoleRules (ctype : CombinationType) (rules : List Rule) : RoleScan :=
  rules.foldl (scanRoleStep ctype) ⟨false, false, false, false, false, false, []⟩

/-- The route-enable validation of `GetRolesWhereClause` (lines 1225-1244):
from the scan result, the `(bAlbumArtists, bSongArtists)` pair. -/
def validateRoleFlags (s : RoleScan) : Bool × Bool :=
  if s.wild then (true, true)
  else
    let bAlbumArtists := !((s.negAA && s.aaRule) || (!s.negA && s.aRule))
    let bSongArtists := !((s.negA && s.aRule) || (!s.negAA && s.aaRule))
    if !bAlbumArtists && !bSongArtists then (true, bSongArtists)
    else (bAlbumArtists, bSongArtists)

/-- The outputs of `GetRolesWhereClause` (lines 1181-1294): the role SQL
clause and the four flag out-parameters. -/
structure RolesResult where
  clause : String
  albumArtists : Bool
  songArtists : Bool
  joinRole : Bool
  roleRules : Bool
  deriving DecidableEq, Repr

/-- `CSmartPlaylistRuleCombination::GetRolesWhereClause` (lines 1181-1294),
for a rule group with combinator `ctype`. -/
def getRolesWhereClause (ctype : CombinationType) (rules : List Rule) :
    RolesResult :=
  let s := scanRoleRules ctype rules
  let flags := validateRoleFlags s
  let roleRulesList := if s.wild then [] else s.named
  if !s.wild && roleRulesList.isEmpty then
    ⟨"song_artist.idRole = 1", flags.1, flags.2, false, false⟩
  else
    let roleClause := roleRulesList.foldl
      (fun acc r =>
        let rolequery := ruleGetWhereClause r "music"
        if rolequery != "" then
          if ctype == .combAnd then
            if acc == "" then rolequery
            else
              let rq := strReplace rolequery "role." "r1."
              let currentRule := buildExists "song_artist AS sa1"
                "sa1.idArtist = song_artist.idArtist AND sa1.idSong = song_artist.idSong"
                "JOIN role as r1 ON sa1.idRole = r1.idRole" rq
              combineClause ctype acc currentRule
          else
            if acc == "" then rolequery else acc ++ " OR " ++ rolequery
        else acc) ""
    let bAlbumArtists := if roleClause != "" && flags.2 then false
                         else flags.1
    ⟨roleClause, bAlbumArtists, flags.2, true, s.anyRole⟩

/-- `CSmartPlaylistRuleCombination::GetArtistsWhereClause` (lines
1296-1484). -/
def getArtistsWhereClause (ctype : CombinationType) (rules : List Rule) :
    String :=
  let roles := getRolesWhereClause ctype rules
  let bAlbumArtists := roles.albumArtists
  let bSongArtists := roles.songArtists
  let bJoinRole := roles.joinRole
  let bRoleRules := roles.roleRules
  let roleClause := roles.clause
  let scan := rules.foldl
    (fun (st : String × String × String × Bool) r =>
      let songSubclause := st.1
      let albumSubclause := st.2.1
      let albumSourceclause := st.2.2.1
      let bSongArtistNeedSong := st.2.2.2
      if r.field == .path then
        let pathquery := ruleGetWhereClause r "music"
        if pathquery != "" then
          let currentRule := buildExists "path" "path.idPath = song.idPath"
            "" pathquery
          (combineClause ctype songSubclause currentRule, albumSubclause,
           albumSourceclause, true)
        else (songSubclause, albumSubclause, albumSourceclause,
              bSongArtistNeedSong)
      else if r.field == .source then
        let query := strReplace (ruleGetWhereClause r "albums") "albumview" "album"
        (songSubclause, albumSubclause,
         combineClause ctype albumSourceclause query, true)
      else if isFieldNative r.field .artist "song" then
        let songquery := strReplace (ruleGetWhereClause r "songs") "songview" "song"
        (combineClause ctype songSubclause songquery, albumSubclause,
         albumSourceclause,
         if r.field != .genre then true else bSongArtistNeedSong)
      else if isFieldNative r.field .artist "album" then
        let albumquery := strReplace (ruleGetWhereClause r "albums") "albumview" "album"
        (songSubclause, combineClause ctype albumSubclause albumquery,
         albumSourceclause, true)
      else (songSubclause, albumSubclause, albumSourceclause,
            bSongArtistNeedSong))
    ("", "", "", false)
  let songSubclause := scan.1
  let albumSubclause := scan.2.1
  let albumSourceclause := scan.2.2.1
  let bSongArtistNeedSong := scan.2.2.2
  let bAlbumArtistNeedSong := songSubclause != "" ||
    (bJoinRole && !bSongArtists)
  let roleClause2 := if roleClause != "" && bJoinRole then
      "(" ++ roleClause ++ ")"
    else roleClause
  let songArtistJoin := if roleClause != "" && bJoinRole then
      "JOIN role ON song_artist.idRole = role.idRole"
    else ""
  let songArtistWhere := if roleClause != "" then roleClause2 else ""
  let stage :=
    if bAlbumArtistNeedSong then
      if bRoleRules && bAlbumArtists && !bSongArtists then
        let saw := appendWhere songArtistWhere "song_artist.idSong = song.idSong"
        let strSQL := buildExists "song_artist"
          "song_artist.idArtist = artistview.idArtist" songArtistJoin saw
        let songSubclause2 :=
          if strSQL != "" then combineClause ctype songSubclause strSQL
          else songSubclause
        let aac := buildExists "song" "song.idAlbum = album_artist.idAlbum" ""
          ("(" ++ songSubclause2 ++ ")")
        (songSubclause2, saw, aac)
      else
        let aac := buildExists "song" "song.idAlbum = album_artist.idAlbum" ""
          ("(" ++ songSubclause ++ ")")
        (songSubclause, songArtistWhere, aac)
    else (songSubclause, songArtistWhere, "")
  let songSubclause := stage.1
  let songArtistWhere := stage.2.1
  let albumArtistClause := stage.2.2
  let albumArtistClause :=
    if albumSubclause != "" then
      let strSQL := combineClause ctype albumSubclause albumSourceclause
      let strSQL := if albumArtistClause != "" then
          combineClause ctype strSQL albumArtistClause
        else strSQL
      buildExists "album" "album.idAlbum = album_artist.idAlbum" ""
        ("(" ++ strSQL ++ ")")
    else if albumSourceclause != "" then
      let strSQL := strReplace albumSourceclause "album.idAlbum" "album_artist.idAlbum"
      combineClause ctype strSQL albumArtistClause
    else albumArtistClause
  let albumArtistSubWhere := if albumArtistClause != "" then
      "(" ++ albumArtistClause ++ ")"
    else ""
  let songArtistClause :=
    if albumSubclause != "" then
      let strSQL := combineClause ctype albumSubclause albumSourceclause
      buildExists "album" "album.idAlbum = song.idAlbum" ""
        ("(" ++ strSQL ++ ")")
    else if albumSourceclause != "" then
      let strSQL := strReplace albumSourceclause "album.idAlbum" "song.idAlbum"
      combineClause ctype strSQL ""
    else ""
  let songArtistClause :=
    if bSongArtistNeedSong then
      let strSQL :=
        if songSubclause != "" then
          combineClause ctype songSubclause songArtistClause
        else songArtistClause
      buildExists "song" "song.idSong = song_artist.idSong" ""
        ("(" ++ strSQL ++ ")")
    else if songSubclause != "" then
      strReplace songSubclause "song.idSong" "song_artist.idSong"
    else songArtistClause
  let songArtistWhere :=
    if songArtistClause != "" then
      appendWhere songArtistWhere ("(" ++ songArtistClause ++ ")")
    else songArtistWhere
  let rule := if bAlbumArtists then
      buildExists "album_artist" "album_artist.idArtist = artistview.idArtist"
        "" albumArtistSubWhere
    else ""
  if bSongArtists then
    let strSQL := buildExists "song_artist"
      "song_artist.idArtist = artistview.idArtist" songArtistJoin
      songArtistWhere
    let rule := if strSQL != "" && rule != "" then
        if !bJoinRole || ctype != .combAnd then rule ++ " OR "
        else rule ++ " AND "
      else rule
    rule ++ strSQL
  else rule

/-- `CSmartPlaylistRuleCombination::GetAlbumsWhereClause` (lines
1486-1651). -/
def getAlbumsWhereClause (ctype : CombinationType) (rules : List Rule) :
    String :=
  let roles := getRolesWhereClause ctype rules
  let bAlbumArtists := roles.albumArtists
  let bSongArtists := roles.songArtists
  let bJoinRole := roles.joinRole
  let bRoleRules := roles.roleRules
  let roleClause := roles.clause
  let scan := rules.foldl
    (fun (st : String × String × String × String) r =>
      let songSubclause := st.1
      let artistSubclause := st.2.1
      let albumartistField := st.2.2.1
      let artistField := st.2.2.2
      if r.field == .path then
        let pathquery := ruleGetWhereClause r "music"
        if pathquery != "" then
          let currentRule := buildExists "path" "path.idPath = song.idPath"
            "" pathquery
          (combineClause ctype songSubclause currentRule, artistSubclause,
           albumartistField, artistField)
        else (songSubclause, artistSubclause, albumartistField, artistField)
      else if isFieldNative r.field .album "artist" then
        let artistquery := strReplace (ruleGetWhereClause r "artist") "artistview" "artist"
        if r.field == .artist then
          (songSubclause, artistSubclause, albumartistField,
           combineClause ctype artistField artistquery)
        else if r.field == .albumartist then
          (songSubclause, artistSubclause,
           combineClause ctype albumartistField artistquery, artistField)
        else
          (songSubclause, combineClause ctype artistSubclause artistquery,
           albumartistField, artistField)
      else if isFieldNative r.field .album "song" then
        let songquery := strReplace (ruleGetWhereClause r "songs") "songview" "song"
        (combineClause ctype songSubclause songquery, artistSubclause,
         albumartistField, artistField)
      else (songSubclause, artistSubclause, albumartistField, artistField))
    ("", "", "", "")
  let songSubclause := scan.1
  let artistSubclause := scan.2.1
  let albumartistField := scan.2.2.1
  let artistField := scan.2.2.2
  let bAlbumartistAndRole := bRoleRules &&
    (albumartistField != "" || (bAlbumArtists && !bSongArtists))
  let songArtistJoin :=
    appendJoin
      (if bAlbumartistAndRole then ""
       else if artistSubclause != "" || albumartistField != "" ||
               artistField != "" then
        "JOIN artist ON artist.idArtist = song_artist.idArtist"
       else "")
      (if roleClause != "" && bJoinRole then
        "JOIN role ON song_artist.idRole = role.idRole"
       else "")
  let songArtistWhere :=
    appendWhere
      (if bAlbumartistAndRole then "song_artist.idArtist = album_artist.idArtist"
       else "")
      (if roleClause != "" then
        (if bJoinRole then "(" ++ roleClause ++ ")" else roleClause)
       else "")
  let acs :=
    if albumartistField != "" && artistField != "" then
      (combineClause ctype artistSubclause albumartistField,
       combineClause ctype artistSubclause artistField)
    else
      let a := combineClause ctype
        (combineClause ctype artistSubclause albumartistField) artistField
      (a, a)
  let artistClauseAlbum := acs.1
  let artistClauseSong := acs.2
  let songartistSubclause :=
    if artistClauseSong != "" || bRoleRules then
      buildExists "song_artist" "song_artist.idSong = song.idSong"
        songArtistJoin
        (if artistClauseSong != "" && !bAlbumartistAndRole then
          appendWhere songArtistWhere ("(" ++ artistClauseSong ++ ")")
         else songArtistWhere)
    else ""
  let songSubSQLNoArtist :=
    if songSubclause != "" then
      buildExists "song" "song.idAlbum = albumview.idAlbum" ""
        ("(" ++ songSubclause ++ ")")
    else ""
  let songSubSQL := combineClause ctype songSubclause songartistSubclause
  let songSubSQL :=
    if songSubSQL != "" then
      buildExists "song" "song.idAlbum = albumview.idAlbum" ""
        ("(" ++ songSubSQL ++ ")")
    else songSubSQL
  let albumartistSubclause :=
    buildExists "album_artist" "album_artist.idAlbum = albumview.idAlbum"
      "JOIN artist ON artist.idArtist = album_artist.idArtist"
      (appendWhere
        (if artistClauseAlbum != "" then "(" ++ artistClauseAlbum ++ ")"
         else "")
        (if bAlbumartistAndRole then songSubSQL else ""))
  let albumartistSubclause :=
    if bRoleRules && !bAlbumArtists && albumartistField == "" then ""
    else albumartistSubclause
  if albumartistField != "" || (bAlbumArtists && !bSongArtists) then
    if bRoleRules then albumartistSubclause
    else if artistField != "" || !bAlbumArtists then
      combineClause ctype albumartistSubclause songSubSQL
    else combineClause ctype albumartistSubclause songSubSQLNoArtist
  else if songartistSubclause != "" then
    if ctype != .combAnd then
      combineClause ctype albumartistSubclause songSubSQL
    else
      let rule := combineClause ctype albumartistSubclause songSubSQLNoArtist
      (if rule != "" then rule ++ " OR " else rule) ++ songSubSQL
  else if songSubSQL != "" then songSubSQL
  else ""

/-- `CSmartPlaylistRuleCombination::GetSongsWhereClause` (lines
1653-1799). -/
def getSongsWhereClause (ctype : CombinationType) (rules : List Rule) :
    String :=
  let roles := getRolesWhereClause ctype rules
  let bAlbumArtists := roles.albumArtists
  let bSongArtists := roles.songArtists
  let bJoinRole := roles.joinRole
  let bRoleRules := roles.roleRules
  let roleClause := roles.clause
  let scan := rules.foldl
    (fun (st : String × String × String × String × String) r =>
      let albumSubclause := st.1
      let albumSourceclause := st.2.1
      let artistSubclause := st.2.2.1
      let albumartistField := st.2.2.2.1
      let artistField := st.2.2.2.2
      if isFieldNative r.field .album "artist" then
        let query := strReplace (ruleGetWhereClause r "artist") "artistview" "artist"
        if r.field == .artist then
          (albumSubclause, albumSourceclause, artistSubclause,
           albumartistField, combineClause ctype artistField query)
        else if r.field == .albumartist then
          (albumSubclause, albumSourceclause, artistSubclause,
           combineClause ctype albumartistField query, artistField)
        else
          (albumSubclause, albumSourceclause,
           combineClause ctype artistSubclause query, albumartistField,
           artistField)
      else if isFieldNative r.field .artist "album" then
        let query := strReplace (ruleGetWhereClause r "albums") "albumview" "album"
        (combineClause ctype albumSubclause query, albumSourceclause,
         artistSubclause, albumartistField, artistField)
      else if r.field == .source then
        let query := strReplace (ruleGetWhereClause r "albums") "albumview" "album"
        (albumSubclause, combineClause ctype albumSourceclause query,
         artistSubclause, albumartistField, artistField)
      else (albumSubclause, albumSourceclause, artistSubclause,
            albumartistField, artistField))
    ("", "", "", "", "")
  let albumSubclause := scan.1
  let albumSourceclause := scan.2.1
  let artistSubclause := scan.2.2.1
  let albumartistField := scan.2.2.2.1
  let artistField := scan.2.2.2.2
  let bAlbumartistOnly := albumartistField != "" ||
    (bAlbumArtists && !bSongArtists)
  let bAlbumartistAndRole := bRoleRules && bAlbumartistOnly
  let albumSubSQL :=
    if albumSubclause != "" then
      let albumSubclause2 :=
        if albumSourceclause != "" then
          combineClause ctype albumSubclause albumSourceclause
        else albumSubclause
      buildExists "album" "album.idAlbum = songview.idAlbum" ""
        ("(" ++ albumSubclause2 ++ ")")
    else if albumSourceclause != "" then
      strReplace albumSourceclause "album.idAlbum" "songview.idAlbum"
    else ""
  let songArtistJoin :=
    appendJoin
      (if bAlbumartistAndRole then ""
       else if artistSubclause != "" || albumartistField != "" ||
               artistField != "" then
        "JOIN artist ON artist.idArtist = song_artist.idArtist"
       else "")
      (if roleClause != "" && bJoinRole then
        "JOIN role ON song_artist.idRole = role.idRole"
       else "")
  let songArtistWhere :=
    appendWhere
      (if bAlbumartistAndRole then "song_artist.idArtist = album_artist.idArtist"
       else "")
      (if roleClause != "" then
        (if bJoinRole then "(" ++ roleClause ++ ")" else roleClause)
       else "")
  let acs :=
    if albumartistField != "" && artistField != "" then
      (combineClause ctype artistSubclause albumartistField,
       combineClause ctype artistSubclause artistField)
    else
      let a := combineClause ctype
        (combineClause ctype artistSubclause albumartistField) artistField
      (a, a)
  let artistClauseAlbum := acs.1
  let artistClauseSong := acs.2
  let songartistSubclause :=
    if artistClauseSong != "" || bRoleRules then
      buildExists "song_artist" "song_artist.idSong = songview.idSong"
        songArtistJoin
        (if artistClauseSong != "" && !bAlbumartistAndRole then
          appendWhere songArtistWhere ("(" ++ artistClauseSong ++ ")")
         else songArtistWhere)
    else ""
  let albumartistSubclause :=
    buildExists "album_artist" "album_artist.idAlbum = songview.idAlbum"
      "JOIN artist ON artist.idArtist = album_artist.idArtist"
      (appendWhere
        (if artistClauseAlbum != "" then "(" ++ artistClauseAlbum ++ ")"
         else "")
        (if bAlbumartistAndRole then songartistSubclause else ""))
  let albumartistSubclause :=
    if bRoleRules && !bAlbumArtists && albumartistField == "" then ""
    else albumartistSubclause
  let rule :=
    if bAlbumartistOnly then albumartistSubclause
    else if bRoleRules then songartistSubclause
    else if artistField != "" && albumartistField != "" then
      combineClause ctype albumartistSubclause songartistSubclause
    else if artistClauseSong != "" then
      albumartistSubclause ++ " OR " ++ songartistSubclause
    else ""
  if albumSubSQL != "" then combineClause ctype albumSubSQL rule
  else rule

/-- `CSmartPlaylistRuleCombination::GetCombinedWhereClause` (lines
1168-1179). -/
def getCombinedWhereClause (ctype : CombinationType) (rules : List Rule)
    (strType : String) : String :=
  if strType == "artists" then getArtistsWhereClause ctype rules
  else if strType == "albums" then getAlbumsWhereClause ctype rules
  else if strType == "songs" then getSongsWhereClause ctype rules
  else ""

/-- The referenced-playlist set threaded through one compile (the
`std::set<std::string>& referencedPlaylists` argument), as the list of
names inserted so far. -/
abbrev Refs := List String

/-- Modelled from the spec: the playlist-store collaborator (§6) - the
finite collection of persisted playlists, looked up by name. -/
def storeFind (store : List SmartPlaylist) (n : String) :
    Option SmartPlaylist :=
  store.find? (fun p => p.name == n)

/-- Modelled from the spec: `CSmartPlaylistDirectory::GetPlaylistByName` -
resolves a playlist display name to its file (here: the name itself), or
empty when not found. -/
def getPlaylistByName (store : List SmartPlaylist) (name _strType : String) :
    String :=
  if (storeFind store name).isSome then name else ""

/-- Modelled from the spec: `CSmartPlaylist::Load` over the store. -/
def loadPlaylist (store : List SmartPlaylist) (file : String) :
    Option SmartPlaylist :=
  storeFind store file

/-- The `FieldPlaylist` branch of the rule loop of
`CSmartPlaylistRuleCombination::GetWhereClause` (lines 1117-1142): resolve
the named playlist, guard against cycles through the referenced-playlist
set, check type compatibility, recompile the nested playlist (through
`expand`) and negate the spliced clause for a does-not-equal operator. -/
def playlistRuleClauseGo (store : List SmartPlaylist)
    (expand : SmartPlaylist → Refs → String × Refs) (r : Rule)
    (strType : String) (refs : Refs) : String × Refs :=
  let playlistFile := getPlaylistByName store (r.parameter.headD "") strType
  if playlistFile != "" && !(refs.contains playlistFile) then
    let refs1 := playlistFile :: refs
    match loadPlaylist store playlistFile with
    | none => ("", refs1)
    | some p =>
        let compat := p.mediaType == strType ||
          (p.mediaType == "mixed" &&
            (strType == "songs" || strType == "musicvideos")) ||
          p.mediaType == ""
        let newType := if compat then strType else p.mediaType
        let res :=
          if compat then expand (SmartPlaylist.mk p.name strType p.rules) refs1
          else ("", refs1)
        let currentRule :=
          if newType == strType then
            if r.op == .doesNotEqual then "NOT (" ++ res.1 ++ ")" else res.1
          else ""
        (currentRule, res.2)
  else ("", refs)

/-- The rule loop of `CSmartPlaylistRuleCombination::GetWhereClause` (lines
1106-1154): skip virtual-folder rules, splice nested playlists, collect
non-simple rules for the cross-entity assembler, and compile simple rules
individually. -/
def rulesGo (store : List SmartPlaylist)
    (expand : SmartPlaylist → Refs → String × Refs)
    (ctype : CombinationType) :
    List Rule → String → Refs → String → List Rule →
      String × Refs × List Rule
  | [], _, refs, acc, joined => (acc, refs, joined)
  | r :: rest, strType, refs, acc, joined =>
    if r.field == .virtualFolder then
      rulesGo store expand ctype rest strType refs acc joined
    else if r.field == .playlist then
      let res := playlistRuleClauseGo store expand r strType refs
      rulesGo store expand ctype rest strType res.2
        (combineClause ctype acc res.1) joined
    else if !(isFieldRuleSimple r.field (mediaTypeFromString strType)) then
      rulesGo store expand ctype rest strType refs acc (joined ++ [r])
    else
      rulesGo store expand ctype rest strType refs
        (combineClause ctype acc (ruleGetWhereClause r strType)) joined

mutual

/-- `CSmartPlaylistRuleCombination::GetWhereClause` (lines 1092-1166) for
one combination node, with the nested-playlist recompilation abstracted as
`expand`. -/
def combinationGo (store : List SmartPlaylist)
    (expand : SmartPlaylist → Refs → String × Refs) :
    RuleCombination → String → Refs → String × Refs
  | .mk ctype combos rs, strType, refs =>
    let cPart := combsGo store expand ctype combos strType refs true
    let rPart := rulesGo store expand ctype rs strType cPart.2 cPart.1 []
    let rule := rPart.1
    let joined := rPart.2.2
    let rule :=
      if joined.isEmpty then rule
      else combineClause ctype rule
        (getCombinedWhereClause ctype joined strType)
    (rule, rPart.2.1)

/-- The child-combination loop of `GetWhereClause` (lines 1096-1104). -/
def combsGo (store : List SmartPlaylist)
    (expand : SmartPlaylist → Refs → String × Refs)
    (ctype : CombinationType) :
    List RuleCombination → String → Refs → Bool → String × Refs
  | [], _, refs, _ => ("", refs)
  | c :: rest, strType, refs, first =>
    let sep :=
      if first then ""
      else if ctype == .combAnd then " AND " else " OR "
    let sub := combinationGo store expand c strType refs
    let restR := combsGo store expand ctype rest strType sub.2 false
    (sep ++ "(" ++ sub.1 ++ ")" ++ restR.1, restR.2)

end

/-- The recursive combination compiler: `fuel` bounds the number of nested
playlist expansions along one path (the C++ recursion is unbounded but
guarded by the referenced-playlist set; the stability theorem below shows
any fuel beyond the number of unreferenced store playlists gives the same
result). -/
def combinationWhereClause (store : List SmartPlaylist) :
    Nat → RuleCombination → String → Refs → String × Refs
  | 0, _, _, refs => ("", refs)
  | Nat.succ fuel, c, strType, refs =>
    combinationGo store
      (fun p rfs => combinationWhereClause store fuel p.rules p.mediaType rfs)
      c strType refs

/-- `CSmartPlaylist::GetWhereClause` (lines 2265-2268): delegate to the root
rule combination with the playlist's media type. -/
def smartPlaylistGetWhereClause (store : List SmartPlaylist) (fuel : Nat)
    (p : SmartPlaylist) (refs : Refs) : String × Refs :=
  combinationWhereClause store fuel p.rules p.mediaType refs

/-- Modelled from the spec: the top-level compile entry point (§4.5 - the
caller of `CSmartPlaylist::GetWhereClause`, outside the translated sources,
initializes the referenced-playlist set to contain the playlist's own
name before delegating). -/
def smartPlaylistCompile (store : List SmartPlaylist) (fuel : Nat)
    (p : SmartPlaylist) : String × Refs :=
  smartPlaylistGetWhereClause store fuel p [p.name]

/-- The number of store playlists whose names are not yet in the
referenced-playlist set - the quantity that shrinks at every nested
expansion. -/
def expandBound (store : List SmartPlaylist) (refs : Refs) : Nat :=
  (store.filter (fun p => !(refs.contains p.name))).length

/-! ### Claim-side and spec-side formulations -/

/-- The five width bands exactly as claim C7 states them, with thresholds
2161 / 1081 / 721 / 541. -/
def videoResolutionBandClaimed (iRes : Int) : Int × Int :=
  if iRes ≥ 2161 then (1921, intMax)
  else if iRes ≥ 1081 then (1281, 1920)
  else if iRes ≥ 721 then (961, 1280)
  else if iRes ≥ 541 then (721, 960)
  else (0, 720)

/-- The amended band table: `(threshold, min, max)` rows, first row whose
threshold is at most the parameter wins; below every threshold the band is
`[0, 720]`. -/
def bandThresholds : List (Int × Int × Int) :=
  [(2160, 1921, 2147483647), (1080, 1281, 1920), (720, 961, 1280),
   (540, 721, 960)]

/-- The amended bucketing: first row of the band table whose threshold the
parameter reaches. -/
def bandFor (iRes : Int) : Int × Int :=
  match bandThresholds.find? (fun t => decide (t.1 ≤ iRes)) with
  | some t => t.2
  | none => (0, 720)

/-- The role rules of a group carrying a given (case-insensitive) first
parameter value. -/
def roleRulesWithValue (v : String) (rules : List Rule) : List Rule :=
  rules.filter (fun r => r.field == .role && eqNoCase (r.parameter.headD "") v)

/-- The named role rules of a group: role rules whose value is none of
"albumartist", "artist" and "%". -/
def namedRoleRules (rules : List Rule) : List Rule :=
  rules.filter (fun r => r.field == .role &&
    !(eqNoCase (r.parameter.headD "") "albumartist") &&
    !(eqNoCase (r.parameter.headD "") "artist") &&
    !(eqNoCase (r.parameter.headD "") "%"))

/-- Whether the group has a wildcard "%" role rule. -/
def hasWildRoleRule (rules : List Rule) : Bool :=
  !(roleRulesWithValue "%" rules).isEmpty

/-- Whether the last rule of a list is negated (does-not-contain or
does-not-equal); false for the empty list. -/
def lastNegRole (l : List Rule) : Bool :=
  match l.getLast? with
  | some r => isNegOp r.op
  | none => false

/-- Whether some rule of the list is negated. -/
def anyNegRole (l : List Rule) : Bool := l.any (fun r => isNegOp r.op)

/-- Whether some rule of the list is non-negated. -/
def anyPosRole (l : List Rule) : Bool := l.any (fun r => !(isNegOp r.op))

/-- The route-enable flags exactly as claim C1 states them: under
AND-combination the presence of a negated "albumartist" role rule or of a
non-negated "artist" role rule disables the album-artist route, the mirror
condition disables the song-artist route, a "%" role value disables role
filtering entirely, and when both routes would end up disabled the
album-artist route is re-enabled. -/
def roleFlagsClaimed (ctype : CombinationType) (rules : List Rule) :
    Bool × Bool :=
  if hasWildRoleRule rules then (true, true)
  else
    let aa := roleRulesWithValue "albumartist" rules
    let a := roleRulesWithValue "artist" rules
    let aaOff := ctype == .combAnd && (anyNegRole aa || anyPosRole a)
    let saOff := ctype == .combAnd && (anyNegRole a || anyPosRole aa)
    if aaOff && saOff then (true, false) else (!aaOff, !saOff)

/-- The route-enable flags as amended: the same computation, except that
when several role rules carry the same value only the negation of the last
such rule counts (the scan loop overwrites the negation flag on every
occurrence). -/
def roleFlagsAmended (ctype : CombinationType) (rules : List Rule) :
    Bool × Bool :=
  if hasWildRoleRule rules then (true, true)
  else
    let aa := roleRulesWithValue "albumartist" rules
    let a := roleRulesWithValue "artist" rules
    let aaOff := ctype == .combAnd &&
      ((!aa.isEmpty && lastNegRole aa) || (!a.isEmpty && !(lastNegRole a)))
    let saOff := ctype == .combAnd &&
      ((!a.isEmpty && lastNegRole a) || (!aa.isEmpty && !(lastNegRole aa)))
    if aaOff && saOff then (true, false) else (!aaOff, !saOff)

/-- The C2 rule group: role equals "albumartist" AND/OR artist contains
"Bob", for the "albums" media type. -/
def roleAlbumartistBobRules : List Rule :=
  [⟨.role, .equals, ["albumartist"]⟩, ⟨.artist, .contains, ["Bob"]⟩]

/-- The album-artist-route fragment the C2 group compiles to. -/
def albumArtistRouteFragment : String :=
  "EXISTS (SELECT 1 FROM album_artist JOIN artist ON artist.idArtist = album_artist.idArtist WHERE album_artist.idAlbum = albumview.idAlbum AND (artist.strArtist LIKE \x27%Bob%\x27))"

/-- The song-route fragment the C2 group compiles to: the artist condition
applied through the `song_artist` table with the default role. -/
def songRouteFragment : String :=
  "EXISTS (SELECT 1 FROM song WHERE song.idAlbum = albumview.idAlbum AND (EXISTS (SELECT 1 FROM song_artist JOIN artist ON artist.idArtist = song_artist.idArtist WHERE song_artist.idSong = song.idSong AND song_artist.idRole = 1 AND (artist.strArtist LIKE \x27%Bob%\x27))))"

/-- The nested-playlist splice compatibility as amended (claim C3): the
nested playlist's type must equal the compile type, or be empty, or be
"mixed" while the compile type is "songs" or "musicvideos". -/
def spliceCompatible (nestedType outerType : String) : Bool :=
  nestedType == outerType ||
    (nestedType == "mixed" &&
      (outerType == "songs" || outerType == "musicvideos")) ||
    nestedType == ""

/-- A stored playlist of type "songs" with one simple title rule, named
"Q". -/
def songsTitlePlaylist : SmartPlaylist :=
  ⟨"Q", "songs", .mk .combAnd [] [⟨.title, .equals, ["x"]⟩]⟩

/-- A store holding only `songsTitlePlaylist`. -/
def qStore : List SmartPlaylist := [songsTitlePlaylist]

/-- A combination holding one playlist-reference rule to "Q". -/
def refQCombination : RuleCombination :=
  .mk .combAnd [] [⟨.playlist, .equals, ["Q"]⟩]

/-- The self-referencing playlist of claim C4: named "P", with one rule
{playlist, equals, "P"}. -/
def selfRefPlaylist : SmartPlaylist :=
  ⟨"P", "songs", .mk .combAnd [] [⟨.playlist, .equals, ["P"]⟩]⟩

/-- A store holding only the self-referencing playlist. -/
def selfRefStore : List SmartPlaylist := [selfRefPlaylist]

/-- A cyclic pair of playlists: "CycA" references "CycB" and vice versa,
each with one additional simple title rule. -/
def cycAPlaylist : SmartPlaylist :=
  ⟨"CycA", "songs",
   .mk .combAnd [] [⟨.playlist, .equals, ["CycB"]⟩, ⟨.title, .equals, ["a"]⟩]⟩

/-- The second playlist of the cycle. -/
def cycBPlaylist : SmartPlaylist :=
  ⟨"CycB", "songs",
   .mk .combAnd [] [⟨.playlist, .equals, ["CycA"]⟩, ⟨.title, .equals, ["b"]⟩]⟩

/-- The cyclic store of claim C9. -/
def cycStore : List SmartPlaylist := [cycAPlaylist, cycBPlaylist]

/-- A combination with one playlist-reference rule to "CycA". -/
def refCycACombination : RuleCombination :=
  .mk .combAnd [] [⟨.playlist, .equals, ["CycA"]⟩]

/-! ### Theorems -/

/-- An appended string is nonempty when its first part is. -/
theorem append_ne_empty_left {a : String} (b : String) (h : a ≠ "") :
    a ++ b ≠ "" := by
  intro hc
  apply h
  have hdata := congrArg String.data hc
  simp only [String.data_append] at hdata
  rcases List.append_eq_nil.mp hdata with ⟨h1, _⟩
  cases a
  simp_all

/-- `joinSep` over a cons whose head is nonempty is nonempty. -/
theorem joinSep_cons_ne_empty {sep c : String} (t : List String)
    (h : c ≠ "") : joinSep sep (c :: t) ≠ "" := by
  cases t with
  | nil => simpa [joinSep] using h
  | cons d u =>
      simp only [joinSep]
      exact append_ne_empty_left _ (append_ne_empty_left _ h)

/-- The accumulator form of the separator-joining folds of
`FormatParameters`: once the accumulator is nonempty, the fold is a plain
join. -/
theorem foldl_joinSep (f : String → String) (sep : String) :
    ∀ (l : List String) (acc : String), acc ≠ "" →
      l.foldl (fun a p => if a == "" then f p else a ++ sep ++ f p) acc =
        joinSep sep (acc :: l.map f) := by
  intro l
  induction l with
  | nil => intro acc h; simp [joinSep]
  | cons p t ih =>
      intro acc h
      have hacc : (acc == "") = false := by
        simpa using h
      simp only [List.foldl, hacc, Bool.false_eq_true, if_false, List.map]
      rw [ih (acc ++ sep ++ f p) (append_ne_empty_left _ (append_ne_empty_left _ h))]
      cases t with
      | nil => simp [joinSep, String.append_assoc]
      | cons q u => simp [joinSep, String.append_assoc]

/-- The separator-joining fold from the empty accumulator, for a nonempty
list of fragments whose first fragment is nonempty. -/
theorem foldl_joinSep_nil (f : String → String) (sep : String)
    (p : String) (t : List String) (h : f p ≠ "") :
    (p :: t).foldl (fun a q => if a == "" then f q else a ++ sep ++ f q) "" =
      joinSep sep ((p :: t).map f) := by
  simp only [List.foldl, List.map]
  rw [if_pos (by rfl)]
  exact foldl_joinSep f sep t (f p) h


/-- Two strings case-insensitively equal to case-insensitively different
strings are distinguished by the case-insensitive comparison. -/
theorem eqNoCase_exclusive (v a b : String) (hab : eqNoCase a b = false)
    (h : eqNoCase v a = true) : eqNoCase v b = false := by
  unfold eqNoCase at *
  have hva := beq_iff_eq.mp h
  rw [beq_eq_false_iff_ne] at hab ⊢
  rw [hva]
  exact hab

/-- The last-rule negation flag over a cons. -/
theorem lastNegRole_cons (r : Rule) (l : List Rule) :
    lastNegRole (r :: l) =
      if l.isEmpty then isNegOp r.op else lastNegRole l := by
  cases l with
  | nil => simp [lastNegRole]
  | cons b t => simp [lastNegRole, List.getLast?_cons_cons]

/-- Characterization of the role-rule scan loop: the wildcard flag records
the presence of a "%" rule, the albumartist/artist rule flags record
presence (under AND-combination), the negation flags record the negation of
the last such rule, and the named rules are collected in order. -/
theorem scanRoleRules_char (ctype : CombinationType) :
    ∀ (rules : List Rule) (s : RoleScan),
      rules.foldl (scanRoleStep ctype) s =
        ⟨s.wild || hasWildRoleRule rules,
         if (roleRulesWithValue "albumartist" rules).isEmpty then s.aaRule
           else ctype == .combAnd,
         if (roleRulesWithValue "artist" rules).isEmpty then s.aRule
           else ctype == .combAnd,
         if (roleRulesWithValue "albumartist" rules).isEmpty then s.negAA
           else lastNegRole (roleRulesWithValue "albumartist" rules),
         if (roleRulesWithValue "artist" rules).isEmpty then s.negA
           else lastNegRole (roleRulesWithValue "artist" rules),
         s.anyRole || rules.any (fun r => r.field == .role),
         s.named ++ namedRoleRules rules⟩ := by
  intro rules
  induction rules with
  | nil =>
      intro s
      cases s
      simp [hasWildRoleRule, roleRulesWithValue, namedRoleRules]
  | cons r rest ih =>
      intro s
      simp only [List.foldl]
      rw [ih]
      cases hf : (r.field == Field.role) with
      | false =>
          simp [scanRoleStep, hf, roleRulesWithValue, namedRoleRules,
            hasWildRoleRule, List.filter_cons]
      | true =>
          cases haa : eqNoCase (r.parameter.head?.getD "") "albumartist" with
          | true =>
              have ha : eqNoCase (r.parameter.head?.getD "") "artist" =
                  false :=
                eqNoCase_exclusive _ "albumartist" "artist" (by decide) haa
              have hw : eqNoCase (r.parameter.head?.getD "") "%" = false :=
                eqNoCase_exclusive _ "albumartist" "%" (by decide) haa
              simp [scanRoleStep, hf, haa, ha, hw, roleRulesWithValue,
                namedRoleRules, hasWildRoleRule, List.filter_cons,
                lastNegRole_cons]
          | false =>
              cases hart : eqNoCase (r.parameter.head?.getD "") "artist" with
              | true =>
                  have hw : eqNoCase (r.parameter.head?.getD "") "%" =
                      false :=
                    eqNoCase_exclusive _ "artist" "%" (by decide) hart
                  simp [scanRoleStep, hf, haa, hart, hw, roleRulesWithValue,
                    namedRoleRules, hasWildRoleRule, List.filter_cons,
                    lastNegRole_cons]
              | false =>
                  cases hwild : eqNoCase (r.parameter.head?.getD "") "%" with
                  | true =>
                      simp [scanRoleStep, hf, haa, hart, hwild,
                        roleRulesWithValue, namedRoleRules, hasWildRoleRule,
                        List.filter_cons]
                  | false =>
                      simp [scanRoleStep, hf, haa, hart, hwild,
                        roleRulesWithValue, namedRoleRules, hasWildRoleRule,
                        List.filter_cons]

/-- C1 counterexample: for the AND-combined group with a non-negated and
then a negated "albumartist" role rule, the scan keeps the negation of the
last occurrence, so the code disables the album-artist route and keeps the
song-artist route, while the claim's presence-based conditions disable both
routes and re-enable the album-artist route - the opposite flags. -/
theorem validateRoleFlags_ne_claimed :
    validateRoleFlags (scanRoleRules .combAnd
      [⟨.role, .equals, ["albumartist"]⟩,
       ⟨.role, .doesNotEqual, ["albumartist"]⟩]) ≠
    roleFlagsClaimed .combAnd
      [⟨.role, .equals, ["albumartist"]⟩,
       ⟨.role, .doesNotEqual, ["albumartist"]⟩] := by
  decide

/-- C1 (amended: when several role rules carry the same value, the negation
status of the last such rule is the one applied): for every rule group the
route-enable flags of `GetRolesWhereClause` are computed as the amended
claim states - under AND-combination a last-negated "albumartist" role rule
or a non-negated "artist" role rule disables the album-artist route and the
mirror condition disables the song-artist route, a "%" role value disables
role filtering entirely, and if both routes would be disabled the
album-artist route is re-enabled - so at least one route is always
enabled. -/
theorem validateRoleFlags_amended (ctype : CombinationType)
    (rules : List Rule) :
    validateRoleFlags (scanRoleRules ctype rules) =
      roleFlagsAmended ctype rules ∧
    ((validateRoleFlags (scanRoleRules ctype rules)).1 ||
     (validateRoleFlags (scanRoleRules ctype rules)).2) = true := by
  unfold scanRoleRules
  rw [scanRoleRules_char]
  unfold validateRoleFlags roleFlagsAmended
  dsimp only
  simp only [Bool.false_or]
  generalize hasWildRoleRule rules = w
  generalize (roleRulesWithValue "albumartist" rules).isEmpty = e1
  generalize lastNegRole (roleRulesWithValue "albumartist" rules) = n1
  generalize (roleRulesWithValue "artist" rules).isEmpty = e2
  generalize lastNegRole (roleRulesWithValue "artist" rules) = n2
  cases ctype <;> revert w e1 n1 e2 n2 <;> decide

set_option maxRecDepth 20000 in
/-- C2 counterexample: under AND-combination the fragment the albums
assembler produces for {role = "albumartist", artist contains "Bob"} does
contain a song_artist-route fragment (the claim says none is present). -/
theorem getAlbumsWhereClause_and_song_artist_present :
    mentionsSub (getAlbumsWhereClause .combAnd roleAlbumartistBobRules)
      "song_artist" = true := by
  decide

set_option maxRecDepth 20000 in
/-- C2 (amended: under AND-combination the fragment is the
album-artist-route fragment AND-combined with a song-subquery fragment that
applies the artist condition through the song_artist route with the default
role; it does not reference only the album-artist route): under
OR-combination the two route fragments are joined by OR. -/
theorem getAlbumsWhereClause_role_albumartist_routes :
    getAlbumsWhereClause .combAnd roleAlbumartistBobRules =
      albumArtistRouteFragment ++ " AND (" ++ songRouteFragment ++ ")" ∧
    getAlbumsWhereClause .combOr roleAlbumartistBobRules =
      albumArtistRouteFragment ++ " OR (" ++ songRouteFragment ++ ")" ∧
    mentionsSub albumArtistRouteFragment "album_artist" = true ∧
    mentionsSub songRouteFragment "song_artist" = true := by
  refine ⟨by decide, by decide, by decide, by decide⟩

/-- C10: the nested-playlist type-compatibility predicate
`CSmartPlaylist::CheckTypeCompatibility` is symmetric in its two media-type
arguments. -/
theorem checkTypeCompatibility_symm :
    ∀ a b : String, checkTypeCompatibility a b = checkTypeCompatibility b a := by
  intro a b
  unfold checkTypeCompatibility
  by_cases hab : a = b
  · subst hab; rfl
  · have h1 : (a == b) = false := by
      simp [hab]
    have h2 : (b == a) = false := by
      rw [beq_eq_false_iff_ne]
      exact fun h => hab h.symm
    simp only [h1, h2, Bool.false_eq_true, if_false]
    by_cases ha : a = "mixed" <;> by_cases hb : b = "mixed" <;>
      simp_all

/-- C7 counterexample: the claim buckets a parameter of 1080 below the
1081 threshold into the `[961, 1280]` band, but
`GetVideoResolutionQuery` uses a threshold of 1080 and selects
`[1281, 1920]`. -/
theorem videoResolutionBand_1080_ne_claimed :
    videoResolutionBand 1080 ≠ videoResolutionBandClaimed 1080 := by
  decide

/-- C7 (amended: the thresholds are 2160 / 1080 / 720 / 540, not
2161 / 1081 / 721 / 541): every video-resolution parameter is bucketed into
exactly one of the five width bands of the band table, and the operator
selects the bound check - equals within the band, does-not-equal outside
it, less-than below the band minimum, greater-than above the band
maximum. -/
theorem videoResolutionQuery_bands :
    (∀ iRes : Int, videoResolutionBand iRes = bandFor iRes) ∧
    (∀ param : String,
      getVideoResolutionQuery .equals param =
        " IN (SELECT DISTINCT idFile FROM streamdetails WHERE iVideoWidth " ++
          (">= " ++ toString (bandFor (strtolModel param)).1 ++
           " AND iVideoWidth <= " ++
           toString (bandFor (strtolModel param)).2) ++ ")") ∧
    (∀ param : String,
      getVideoResolutionQuery .doesNotEqual param =
        " IN (SELECT DISTINCT idFile FROM streamdetails WHERE iVideoWidth " ++
          ("< " ++ toString (bandFor (strtolModel param)).1 ++
           " OR iVideoWidth > " ++
           toString (bandFor (strtolModel param)).2) ++ ")") ∧
    (∀ param : String,
      getVideoResolutionQuery .lessThan param =
        " IN (SELECT DISTINCT idFile FROM streamdetails WHERE iVideoWidth " ++
          ("< " ++ toString (bandFor (strtolModel param)).1) ++ ")") ∧
    (∀ param : String,
      getVideoResolutionQuery .greaterThan param =
        " IN (SELECT DISTINCT idFile FROM streamdetails WHERE iVideoWidth " ++
          ("> " ++ toString (bandFor (strtolModel param)).2) ++ ")") := by
  have hband : ∀ iRes : Int, videoResolutionBand iRes = bandFor iRes := by
    intro i
    by_cases h1 : (2160:Int) ≤ i
    · simp [videoResolutionBand, bandFor, bandThresholds, List.find?,
        ge_iff_le, h1, intMax]
    · by_cases h2 : (1080:Int) ≤ i
      · simp [videoResolutionBand, bandFor, bandThresholds, List.find?,
          ge_iff_le, h1, h2]
      · by_cases h3 : (720:Int) ≤ i
        · simp [videoResolutionBand, bandFor, bandThresholds, List.find?,
            ge_iff_le, h1, h2, h3]
        · by_cases h4 : (540:Int) ≤ i
          · simp [videoResolutionBand, bandFor, bandThresholds, List.find?,
              ge_iff_le, h1, h2, h3, h4]
          · simp [videoResolutionBand, bandFor, bandThresholds, List.find?,
              ge_iff_le, h1, h2, h3, h4]
  refine ⟨hband, ?_, ?_, ?_, ?_⟩ <;>
    · intro param
      simp only [getVideoResolutionQuery, hband]

/-- The generic clause a genre rule compiles to against the music leaf
table. -/
theorem formatWhereClause_genre_music (op : SearchOperator)
    (params : List String) (oper p : String) :
    formatWhereClause ⟨.genre, op, params⟩ "" oper p "music" =
      "genre.strGenre" ++ prepareSQLParam oper p := rfl

/-- A built EXISTS subquery is never the empty fragment. -/
theorem buildExists_ne_empty (tablename param joinStr whereStr : String) :
    buildExists tablename param joinStr whereStr ≠ "" := by
  unfold buildExists
  apply append_ne_empty_left
  apply append_ne_empty_left
  apply append_ne_empty_left
  apply append_ne_empty_left
  apply append_ne_empty_left
  decide

set_option maxRecDepth 20000 in
/-- C3 counterexample: a nested playlist of type "songs" referenced from a
compile of type "mixed" contributes an empty fragment, although
`CheckTypeCompatibility` deems "songs" and "mixed" compatible and the
nested playlist's own clause is nonempty (the splice check of lines
1128-1133 only admits a nested "mixed" playlist into a "songs" or
"musicvideos" compile, not the direction the claim states). -/
theorem nested_playlist_mixed_outer_not_spliced :
    checkTypeCompatibility "songs" "mixed" = true ∧
    (combinationWhereClause qStore 5 refQCombination "songs" []).1 =
      "songview.strTitle LIKE \x27x\x27" ∧
    (combinationWhereClause qStore 5 refQCombination "mixed" []).1 = "" := by
  refine ⟨by decide, by decide, by decide⟩

/-- C3 (amended: the nested playlist's WHERE clause is spliced in exactly
when the nested type equals the compile type, is empty, or is "mixed" while
the compile type is "songs" or "musicvideos" - the check is on the nested
playlist's type, not the symmetric compatibility predicate) : for a
playlist rule naming a stored playlist not yet in the referenced set, the
contribution is the nested playlist's clause compiled at the outer type
(NOT-wrapped for a does-not-equal operator) when compatible, and empty
otherwise. -/
theorem nested_playlist_splice (store : List SmartPlaylist) (fuel : Nat)
    (r : Rule) (strType : String) (refs : Refs) (name : String)
    (p : SmartPlaylist) (hf : r.field = .playlist) (hp : r.parameter = [name])
    (hn : name ≠ "") (hfind : storeFind store name = some p)
    (hmem : name ∉ refs) :
    (playlistRuleClauseGo store
      (fun q rfs => combinationWhereClause store fuel q.rules q.mediaType rfs)
      r strType refs).1 =
      if spliceCompatible p.mediaType strType then
        (if r.op == .doesNotEqual then
          "NOT (" ++
            (combinationWhereClause store fuel p.rules strType
              (name :: refs)).1 ++ ")"
         else
          (combinationWhereClause store fuel p.rules strType
            (name :: refs)).1)
      else "" := by
  have hfu : r.field = Field.playlist := hf
  clear hf
  have hhead : r.parameter.headD "" = name := by rw [hp]; rfl
  have hname : getPlaylistByName store name strType = name := by
    unfold getPlaylistByName
    rw [hfind]
    rfl
  have hnb : (name != "") = true := by simpa using hn
  have hmb : refs.contains name = false := by simpa using hmem
  unfold playlistRuleClauseGo
  rw [hhead, hname]
  simp only [hnb, hmb, Bool.not_false, Bool.and_self, if_true, loadPlaylist,
    hfind]
  have hcompat : (p.mediaType == strType ||
      p.mediaType == "mixed" &&
        (strType == "songs" || strType == "musicvideos") ||
      p.mediaType == "") = spliceCompatible p.mediaType strType := rfl
  rw [hcompat]
  cases hc : spliceCompatible p.mediaType strType with
  | true => simp [hc]
  | false =>
      have h1 : (p.mediaType == strType) = false := by
        unfold spliceCompatible at hc
        exact (Bool.or_eq_false_iff.mp (Bool.or_eq_false_iff.mp hc).1).1
      simp [hc, h1]

/-- C3 witness: the splice theorem applied to the "Q" store at compile type
"songs". -/
theorem nested_playlist_splice_witness :
    (Rule.mk .playlist .equals ["Q"]).field = Field.playlist ∧
    storeFind qStore "Q" = some songsTitlePlaylist ∧
    (playlistRuleClauseGo qStore
      (fun q rfs => combinationWhereClause qStore 4 q.rules q.mediaType rfs)
      ⟨.playlist, .equals, ["Q"]⟩ "songs" []).1 =
      if spliceCompatible songsTitlePlaylist.mediaType "songs" then
        (if (Rule.mk .playlist .equals ["Q"]).op == .doesNotEqual then
          "NOT (" ++
            (combinationWhereClause qStore 4 songsTitlePlaylist.rules "songs"
              ["Q"]).1 ++ ")"
         else
          (combinationWhereClause qStore 4 songsTitlePlaylist.rules "songs"
            ["Q"]).1)
      else "" :=
  ⟨rfl, rfl,
    nested_playlist_splice qStore 4 ⟨.playlist, .equals, ["Q"]⟩ "songs" []
      "Q" songsTitlePlaylist rfl rfl (by decide) rfl (by simp)⟩

/-- C4: the top-level compile entry point initializes the
referenced-playlist set to the playlist's own name, so the compile of the
self-referencing playlist "P" returns (for every expansion budget) with an
empty clause - the self-reference is never expanded - and the set still
holds exactly "P". -/
theorem selfreference_compile_empty : ∀ fuel : Nat,
    (smartPlaylistCompile selfRefStore fuel selfRefPlaylist).1 = "" ∧
    (smartPlaylistCompile selfRefStore fuel selfRefPlaylist).2 = ["P"] := by
  intro fuel
  cases fuel with
  | zero => exact ⟨rfl, rfl⟩
  | succ f => exact ⟨rfl, rfl⟩

/-- C5: for a multi-valued genre rule on the "songs" media type, a
non-negated rule gathers every parameter value into a single EXISTS
subquery whose per-value clauses are OR-joined (parenthesized when there is
more than one value), while a negated rule produces one negated EXISTS
subquery per parameter value, and these are AND-joined. -/
theorem formatParameters_genre_songs (op : SearchOperator)
    (params : List String) (h : params ≠ []) (oper : String) :
    (formatParameters ⟨.genre, op, params⟩ "" oper "songs" =
      buildExists "song_genre" "song_genre.idSong = songview.idSong"
        "JOIN genre ON genre.idGenre = song_genre.idGenre"
        (if params.length > 1 then
          "(" ++ joinSep " OR " (params.map (fun p =>
            "genre.strGenre" ++ prepareSQLParam oper p)) ++ ")"
         else
          joinSep " OR " (params.map (fun p =>
            "genre.strGenre" ++ prepareSQLParam oper p)))) ∧
    (∀ negate : String, negate ≠ "" →
      formatParameters ⟨.genre, op, params⟩ negate oper "songs" =
        joinSep " AND " (params.map (fun p => negate ++
          buildExists "song_genre" "song_genre.idSong = songview.idSong"
            "JOIN genre ON genre.idGenre = song_genre.idGenre"
            ("genre.strGenre" ++ prepareSQLParam oper p)))) := by
  obtain ⟨p0, t, rfl⟩ : ∃ p0 t, params = p0 :: t := by
    cases params with
    | nil => exact absurd rfl h
    | cons a b => exact ⟨a, b, rfl⟩
  constructor
  · have hleaf0 : (fun p =>
        formatWhereClause ⟨.genre, op, p0 :: t⟩ "" oper p "music") p0 ≠ "" := by
      show formatWhereClause ⟨.genre, op, p0 :: t⟩ "" oper p0 "music" ≠ ""
      rw [formatWhereClause_genre_music]
      exact append_ne_empty_left _ (by decide)
    have hJb : (joinSep " OR " ((p0 :: t).map (fun p =>
        formatWhereClause ⟨.genre, op, p0 :: t⟩ "" oper p "music")) != "") =
        true := by
      have hJne : joinSep " OR " ((p0 :: t).map (fun p =>
          formatWhereClause ⟨.genre, op, p0 :: t⟩ "" oper p "music")) ≠ "" := by
        simp only [List.map_cons]
        exact joinSep_cons_ne_empty _ hleaf0
      simpa using hJne
    have hBEb : (buildExists "song_genre" "song_genre.idSong = songview.idSong"
        "JOIN genre ON genre.idGenre = song_genre.idGenre"
        (if (p0 :: t).length > 1 then
          "(" ++ joinSep " OR " ((p0 :: t).map (fun p =>
            formatWhereClause ⟨.genre, op, p0 :: t⟩ "" oper p "music")) ++ ")"
         else joinSep " OR " ((p0 :: t).map (fun p =>
          formatWhereClause ⟨.genre, op, p0 :: t⟩ "" oper p "music"))) == "")
        = false := by
      rw [beq_eq_false_iff_ne]
      exact buildExists_ne_empty _ _ _ _
    simp only [formatParameters, specialExistsQuery, beq_self_eq_true,
      ite_true]
    rw [foldl_joinSep_nil (fun p =>
      formatWhereClause ⟨.genre, op, p0 :: t⟩ "" oper p "music") " OR " p0 t
      hleaf0]
    simp only [hJb, Bool.true_and, ite_true, hBEb, Bool.false_eq_true,
      ite_false]
    simp only [formatWhereClause_genre_music]
  · intro negate hneg
    have hne : (negate == "") = false := by
      simpa using hneg
    have hf0 : (fun p => negate ++
        buildExists "song_genre" "song_genre.idSong = songview.idSong"
          "JOIN genre ON genre.idGenre = song_genre.idGenre"
          (formatWhereClause ⟨.genre, op, p0 :: t⟩ "" oper p "music")) p0 ≠ ""
        := by
      show (negate ++ buildExists "song_genre"
        "song_genre.idSong = songview.idSong"
        "JOIN genre ON genre.idGenre = song_genre.idGenre"
        (formatWhereClause ⟨.genre, op, p0 :: t⟩ "" oper p0 "music")) ≠ ""
      exact append_ne_empty_left _ hneg
    have hJb : (joinSep " AND " ((p0 :: t).map (fun p => negate ++
        buildExists "song_genre" "song_genre.idSong = songview.idSong"
          "JOIN genre ON genre.idGenre = song_genre.idGenre"
          (formatWhereClause ⟨.genre, op, p0 :: t⟩ "" oper p "music"))) == "")
        = false := by
      rw [beq_eq_false_iff_ne]
      simp only [List.map_cons]
      exact joinSep_cons_ne_empty _ hf0
    simp only [formatParameters, specialExistsQuery, beq_self_eq_true,
      ite_true, hne, Bool.false_eq_true, ite_false, Bool.false_and]
    rw [foldl_joinSep_nil (fun p => negate ++
      buildExists "song_genre" "song_genre.idSong = songview.idSong"
        "JOIN genre ON genre.idGenre = song_genre.idGenre"
        (formatWhereClause ⟨.genre, op, p0 :: t⟩ "" oper p "music")) " AND "
      p0 t hf0]
    simp only [hJb, Bool.false_eq_true, ite_false]
    simp only [formatWhereClause_genre_music]

/-- C5 witness: the negated direction at a concrete two-valued genre
rule. -/
theorem formatParameters_genre_songs_witness :
    ((["Rock", "Jazz"] : List String) ≠ []) ∧ ((" NOT" : String) ≠ "") ∧
    formatParameters ⟨.genre, .doesNotContain, ["Rock", "Jazz"]⟩ " NOT"
        " LIKE \x27%%s%\x27" "songs" =
      joinSep " AND " ((["Rock", "Jazz"] : List String).map (fun p =>
        " NOT" ++
        buildExists "song_genre" "song_genre.idSong = songview.idSong"
          "JOIN genre ON genre.idGenre = song_genre.idGenre"
          ("genre.strGenre" ++ prepareSQLParam " LIKE \x27%%s%\x27" p))) :=
  ⟨by decide, by decide,
    (formatParameters_genre_songs .doesNotContain ["Rock", "Jazz"]
      (by decide) " LIKE \x27%%s%\x27").2 " NOT" (by decide)⟩

/-- C6 counterexample: the playcount field is offered for the "songs" media
type, but an affirmative less-than playcount rule on "songs" compiles to a
bare comparison with no `IS NULL` fallback (line 1070 excludes "songs",
"albums" and "tvshows" from the playcount rewrite). -/
theorem formatWhereClause_playcount_songs_bare :
    formatWhereClause ⟨.playcount, .lessThan, ["5"]⟩ "" " < %s" "5" "songs" =
      "songview.iTimesPlayed < 5" ∧
    mentionsSub
      (formatWhereClause ⟨.playcount, .lessThan, ["5"]⟩ "" " < %s" "5" "songs")
      "IS NULL" = false ∧
    mentionsSub
      (formatWhereClause ⟨.playcount, .lessThan, ["5"]⟩ "" " < %s" "5" "songs")
      "is NULL" = false ∧
    Field.playcount ∈ getFields "songs" := by
  refine ⟨by decide, by decide, by decide, by decide⟩

/-- C6 (amended: the NULL-fallback rewrite happens for last-played on the
six songs/albums/movies/musicvideos/tvshows/episodes types and for
date-added on the four video types, but for playcount only on movies,
musicvideos and episodes and only for the less-than operator among the
claimed ones - not on songs, albums or tvshows): an affirmative less-than /
before / not-in-the-last comparison on those field-type pairs is rewritten
as `field IS NULL OR field <comparison>`. -/
theorem formatWhereClause_null_fallback :
    (∀ op : SearchOperator,
      op = .lessThan ∨ op = .before ∨ op = .notInTheLast →
      ∀ (ps : List String) (negate oper param : String),
      (formatWhereClause ⟨.lastPlayed, op, ps⟩ negate oper param "songs" =
        "songview.lastplayed is NULL or songview.lastplayed" ++
          prepareSQLParam oper param) ∧
      (formatWhereClause ⟨.lastPlayed, op, ps⟩ negate oper param "albums" =
        "albumview.lastplayed is NULL or albumview.lastplayed" ++
          prepareSQLParam oper param) ∧
      (formatWhereClause ⟨.lastPlayed, op, ps⟩ negate oper param "movies" =
        "movie_view.lastPlayed IS NULL OR movie_view.lastPlayed" ++
          prepareSQLParam oper param) ∧
      (formatWhereClause ⟨.lastPlayed, op, ps⟩ negate oper param
          "musicvideos" =
        "musicvideo_view.lastPlayed IS NULL OR musicvideo_view.lastPlayed" ++
          prepareSQLParam oper param) ∧
      (formatWhereClause ⟨.lastPlayed, op, ps⟩ negate oper param "tvshows" =
        "tvshow_view.lastPlayed IS NULL OR tvshow_view.lastPlayed" ++
          prepareSQLParam oper param) ∧
      (formatWhereClause ⟨.lastPlayed, op, ps⟩ negate oper param "episodes" =
        "episode_view.lastPlayed IS NULL OR episode_view.lastPlayed" ++
          prepareSQLParam oper param) ∧
      (formatWhereClause ⟨.dateAdded, op, ps⟩ negate oper param "movies" =
        "movie_view.dateAdded IS NULL OR movie_view.dateAdded" ++
          prepareSQLParam oper param) ∧
      (formatWhereClause ⟨.dateAdded, op, ps⟩ negate oper param
          "musicvideos" =
        "musicvideo_view.dateAdded IS NULL OR musicvideo_view.dateAdded" ++
          prepareSQLParam oper param) ∧
      (formatWhereClause ⟨.dateAdded, op, ps⟩ negate oper param "tvshows" =
        "tvshow_view.dateAdded IS NULL OR tvshow_view.dateAdded" ++
          prepareSQLParam oper param) ∧
      (formatWhereClause ⟨.dateAdded, op, ps⟩ negate oper param "episodes" =
        "episode_view.dateAdded IS NULL OR episode_view.dateAdded" ++
          prepareSQLParam oper param)) ∧
    (∀ (ps : List String) (negate oper param : String),
      (formatWhereClause ⟨.playcount, .lessThan, ps⟩ negate oper param
          "movies" =
        "movie_view.playCount IS NULL OR movie_view.playCount" ++
          prepareSQLParam oper param) ∧
      (formatWhereClause ⟨.playcount, .lessThan, ps⟩ negate oper param
          "musicvideos" =
        "musicvideo_view.playCount IS NULL OR musicvideo_view.playCount" ++
          prepareSQLParam oper param) ∧
      (formatWhereClause ⟨.playcount, .lessThan, ps⟩ negate oper param
          "episodes" =
        "episode_view.playCount IS NULL OR episode_view.playCount" ++
          prepareSQLParam oper param)) := by
  constructor
  · intro op hop
    rcases hop with rfl | rfl | rfl <;>
      exact fun ps negate oper param =>
        ⟨rfl, rfl, rfl, rfl, rfl, rfl, rfl, rfl, rfl, rfl⟩
  · exact fun ps negate oper param => ⟨rfl, rfl, rfl⟩

/-- C6 witness: the last-played NULL fallback at the before operator on
"songs". -/
theorem formatWhereClause_null_fallback_witness :
    (SearchOperator.before = .lessThan ∨ SearchOperator.before = .before ∨
      SearchOperator.before = .notInTheLast) ∧
    formatWhereClause ⟨.lastPlayed, .before, ["2020-01-01"]⟩ ""
        " < \x27%s\x27" "2020-01-01" "songs" =
      "songview.lastplayed is NULL or songview.lastplayed" ++
        prepareSQLParam " < \x27%s\x27" "2020-01-01" :=
  ⟨Or.inr (Or.inl rfl),
    (formatWhereClause_null_fallback.1 .before (Or.inr (Or.inl rfl))
      ["2020-01-01"] "" " < \x27%s\x27" "2020-01-01").1⟩

/-- C8 counterexample: for the video-resolution field with operator
less-than and parameter "720" the code constrains the width below 961 (the
parameter 720 reaches the 720 threshold), not below 0 as the claim
states. -/
theorem videoResolutionQuery_less720_ne_claimed :
    getVideoResolutionQuery .lessThan "720" ≠
      " IN (SELECT DISTINCT idFile FROM streamdetails WHERE iVideoWidth < 0)" := by
  decide

/-- C8 (amended: with operator less-than and parameter "720" the fragment
constrains the width below 961, the minimum of the `[961, 1280]` band that
720 falls into): equals "1080" constrains the width to `[1281, 1920]`,
equals "2160" to `[1921, 2147483647]`, and less-than "720" to widths below
961. -/
theorem videoResolutionQuery_values :
    getVideoResolutionQuery .equals "1080" =
      " IN (SELECT DISTINCT idFile FROM streamdetails WHERE iVideoWidth >= 1281 AND iVideoWidth <= 1920)" ∧
    getVideoResolutionQuery .equals "2160" =
      " IN (SELECT DISTINCT idFile FROM streamdetails WHERE iVideoWidth >= 1921 AND iVideoWidth <= 2147483647)" ∧
    getVideoResolutionQuery .lessThan "720" =
      " IN (SELECT DISTINCT idFile FROM streamdetails WHERE iVideoWidth < 961)" := by
  refine ⟨?_, ?_, ?_⟩ <;> decide



theorem playlistRuleClauseGo_grow (store : List SmartPlaylist)
    (e : SmartPlaylist → Refs → String × Refs)
    (hg : ∀ p rfs, rfs ⊆ (e p rfs).2) (r : Rule) (strType : String)
    (refs : Refs) : refs ⊆ (playlistRuleClauseGo store e r strType refs).2 := by
  unfold playlistRuleClauseGo
  generalize getPlaylistByName store (r.parameter.headD "") strType = pf
  cases hcond : (pf != "" && !(refs.contains pf)) with
  | false =>
      simp only [hcond, Bool.false_eq_true, if_false]
      exact fun a ha => ha
  | true =>
      simp only [hcond, if_true]
      cases hload : loadPlaylist store pf with
      | none =>
          simp only [hload]
          exact fun a ha => List.mem_cons_of_mem _ ha
      | some p =>
          simp only [hload]
          cases hcompat : (p.mediaType == strType ||
              p.mediaType == "mixed" &&
                (strType == "songs" || strType == "musicvideos") ||
              p.mediaType == "") with
          | false =>
              simp only [hcompat, Bool.false_eq_true, if_false]
              exact fun a ha => List.mem_cons_of_mem _ ha
          | true =>
              simp only [hcompat, if_true]
              exact fun a ha => hg _ _ (List.mem_cons_of_mem _ ha)

theorem rulesGo_grow (store : List SmartPlaylist)
    (e : SmartPlaylist → Refs → String × Refs)
    (hg : ∀ p rfs, rfs ⊆ (e p rfs).2) (ctype : CombinationType) :
    ∀ (rs : List Rule) (strType : String) (refs : Refs) (acc : String)
      (joined : List Rule),
      refs ⊆ (rulesGo store e ctype rs strType refs acc joined).2.1 := by
  intro rs
  induction rs with
  | nil => intro strType refs acc joined a ha; simpa [rulesGo] using ha
  | cons r rest ih =>
      intro strType refs acc joined
      simp only [rulesGo]
      split
      · exact ih strType refs acc joined
      · split
        · intro a ha
          exact ih _ _ _ _
            (playlistRuleClauseGo_grow store e hg r strType refs ha)
        · split
          · exact ih _ _ _ _
          · exact ih _ _ _ _

mutual

theorem combinationGo_grow (store : List SmartPlaylist)
    (e : SmartPlaylist → Refs → String × Refs)
    (hg : ∀ p rfs, rfs ⊆ (e p rfs).2) :
    ∀ (c : RuleCombination) (strType : String) (refs : Refs),
      refs ⊆ (combinationGo store e c strType refs).2
  | .mk ctype combos rs, strType, refs => by
      simp only [combinationGo]
      intro a ha
      exact rulesGo_grow store e hg ctype rs strType _ _ _
        (combsGo_grow store e hg combos ctype strType refs true ha)

theorem combsGo_grow (store : List SmartPlaylist)
    (e : SmartPlaylist → Refs → String × Refs)
    (hg : ∀ p rfs, rfs ⊆ (e p rfs).2) :
    ∀ (cs : List RuleCombination) (ctype : CombinationType)
      (strType : String) (refs : Refs) (first : Bool),
      refs ⊆ (combsGo store e ctype cs strType refs first).2
  | [], _, _, refs, _ => by
      intro a ha
      simpa [combsGo] using ha
  | c :: rest, ctype, strType, refs, first => by
      simp only [combsGo]
      intro a ha
      exact combsGo_grow store e hg rest ctype strType _ false
        (combinationGo_grow store e hg c strType refs ha)

end

theorem combinationWhereClause_grow (store : List SmartPlaylist) :
    ∀ (fuel : Nat) (c : RuleCombination) (strType : String) (refs : Refs),
      refs ⊆ (combinationWhereClause store fuel c strType refs).2 := by
  intro fuel
  induction fuel with
  | zero =>
      intro c strType refs a ha
      simpa [combinationWhereClause] using ha
  | succ f ih =>
      intro c strType refs
      simp only [combinationWhereClause]
      exact combinationGo_grow store _
        (fun p rfs => ih p.rules p.mediaType rfs) c strType refs

theorem length_filter_mono {α : Type} (p q : α → Bool)
    (h : ∀ a, p a = true → q a = true) :
    ∀ l : List α, (l.filter p).length ≤ (l.filter q).length := by
  intro l
  induction l with
  | nil => simp
  | cons a t ih =>
      simp only [List.filter_cons]
      cases hp : p a with
      | false =>
          cases hq : q a with
          | false => simpa using ih
          | true => simp; omega
      | true =>
          simp [h a hp]
          omega

theorem expandBound_mono (store : List SmartPlaylist) (refs refs' : Refs)
    (h : refs ⊆ refs') : expandBound store refs' ≤ expandBound store refs := by
  unfold expandBound
  apply length_filter_mono
  intro pl hpl
  simp only [Bool.not_eq_true'] at hpl ⊢
  cases hc : refs.contains pl.name with
  | false => rfl
  | true =>
      exfalso
      have hmem : pl.name ∈ refs := by
        have := List.elem_iff.mp hc
        exact this
      have : pl.name ∈ refs' := h hmem
      have : refs'.contains pl.name = true := List.elem_iff.mpr this
      rw [hpl] at this
      cases this

theorem expandBound_cons (q : SmartPlaylist) (rest : List SmartPlaylist)
    (refs : Refs) :
    expandBound (q :: rest) refs =
      (if refs.contains q.name then 0 else 1) + expandBound rest refs := by
  unfold expandBound
  simp only [List.filter_cons]
  cases hc : refs.contains q.name with
  | false =>
      simp [hc]
      omega
  | true => simp [hc]

theorem expandBound_strict (store : List SmartPlaylist) (name : String)
    (refs : Refs) (hin : (storeFind store name).isSome = true)
    (hnot : name ∉ refs) :
    expandBound store (name :: refs) < expandBound store refs := by
  induction store with
  | nil => simp [storeFind] at hin
  | cons q rest ih =>
      rw [expandBound_cons, expandBound_cons]
      cases hq : (q.name == name) with
      | true =>
          have hqe : q.name = name := beq_iff_eq.mp hq
          have h1 : refs.contains q.name = false := by
            rw [hqe]
            cases hc : refs.contains name with
            | false => rfl
            | true => exact absurd (List.elem_iff.mp hc) hnot
          have h2 : (name :: refs).contains q.name = true := by
            rw [hqe]
            exact List.elem_iff.mpr (List.mem_cons_self _ _)
          have h3 := expandBound_mono rest refs (name :: refs)
            (fun a ha => List.mem_cons_of_mem _ ha)
          rw [h1, h2]
          simp only [if_true, Bool.false_eq_true, if_false]
          omega
      | false =>
          have hin' : (storeFind rest name).isSome = true := by
            unfold storeFind at hin ⊢
            simpa [List.find?, hq] using hin
          have h2 : (name :: refs).contains q.name = refs.contains q.name := by
            simp only [List.contains, List.elem]
            rw [hq]
          rw [h2]
          have := ih hin'
          cases hc : refs.contains q.name <;> simp [hc] <;> omega

theorem playlistRuleClauseGo_congr (store : List SmartPlaylist)
    (e₁ e₂ : SmartPlaylist → Refs → String × Refs) (B : Nat)
    (hagree : ∀ p rfs, expandBound store rfs < B → e₁ p rfs = e₂ p rfs)
    (r : Rule) (strType : String) (refs : Refs)
    (hB : expandBound store refs ≤ B) :
    playlistRuleClauseGo store e₁ r strType refs =
      playlistRuleClauseGo store e₂ r strType refs := by
  unfold playlistRuleClauseGo
  generalize getPlaylistByName store (r.parameter.headD "") strType = pf
  cases hcond : (pf != "" && !(refs.contains pf)) with
  | false => simp only [hcond, Bool.false_eq_true, if_false]
  | true =>
      simp only [hcond, if_true]
      cases hload : loadPlaylist store pf with
      | none => simp only [hload]
      | some p =>
          simp only [hload]
          have hmem : pf ∉ refs := by
            have h2 := ((Bool.and_eq_true _ _).mp hcond).2
            intro hc
            rw [Bool.not_eq_true'] at h2
            have h3 : List.contains refs pf = true := List.elem_iff.mpr hc
            rw [h2] at h3
            cases h3
          have hsome : (storeFind store pf).isSome = true := by
            unfold loadPlaylist at hload
            rw [hload]
            rfl
          have hlt : expandBound store (pf :: refs) < B :=
            lt_of_lt_of_le (expandBound_strict store pf refs hsome hmem) hB
          rw [hagree ⟨p.name, strType, p.rules⟩ (pf :: refs) hlt]

theorem rulesGo_congr (store : List SmartPlaylist)
    (e₁ e₂ : SmartPlaylist → Refs → String × Refs) (B : Nat)
    (hg₁ : ∀ p rfs, rfs ⊆ (e₁ p rfs).2)
    (hagree : ∀ p rfs, expandBound store rfs < B → e₁ p rfs = e₂ p rfs)
    (ctype : CombinationType) :
    ∀ (rs : List Rule) (strType : String) (refs : Refs) (acc : String)
      (joined : List Rule), expandBound store refs ≤ B →
      rulesGo store e₁ ctype rs strType refs acc joined =
        rulesGo store e₂ ctype rs strType refs acc joined := by
  intro rs
  induction rs with
  | nil => intro strType refs acc joined hB; simp [rulesGo]
  | cons r rest ih =>
      intro strType refs acc joined hB
      simp only [rulesGo]
      split
      · exact ih _ _ _ _ hB
      · split
        · rw [← playlistRuleClauseGo_congr store e₁ e₂ B hagree r strType refs
            hB]
          apply ih
          exact le_trans
            (expandBound_mono store refs _
              (playlistRuleClauseGo_grow store e₁ hg₁ r strType refs)) hB
        · split
          · exact ih _ _ _ _ hB
          · exact ih _ _ _ _ hB

mutual

theorem combinationGo_congr (store : List SmartPlaylist)
    (e₁ e₂ : SmartPlaylist → Refs → String × Refs) (B : Nat)
    (hg₁ : ∀ p rfs, rfs ⊆ (e₁ p rfs).2)
    (hagree : ∀ p rfs, expandBound store rfs < B → e₁ p rfs = e₂ p rfs) :
    ∀ (c : RuleCombination) (strType : String) (refs : Refs),
      expandBound store refs ≤ B →
      combinationGo store e₁ c strType refs =
        combinationGo store e₂ c strType refs
  | .mk ctype combos rs, strType, refs, hB => by
      simp only [combinationGo]
      rw [← combsGo_congr store e₁ e₂ B hg₁ hagree combos ctype strType refs
        true hB]
      rw [rulesGo_congr store e₁ e₂ B hg₁ hagree ctype rs strType _ _ _
        (le_trans (expandBound_mono store refs _
          (combsGo_grow store e₁ hg₁ combos ctype strType refs true)) hB)]

theorem combsGo_congr (store : List SmartPlaylist)
    (e₁ e₂ : SmartPlaylist → Refs → String × Refs) (B : Nat)
    (hg₁ : ∀ p rfs, rfs ⊆ (e₁ p rfs).2)
    (hagree : ∀ p rfs, expandBound store rfs < B → e₁ p rfs = e₂ p rfs) :
    ∀ (cs : List RuleCombination) (ctype : CombinationType)
      (strType : String) (refs : Refs) (first : Bool),
      expandBound store refs ≤ B →
      combsGo store e₁ ctype cs strType refs first =
        combsGo store e₂ ctype cs strType refs first
  | [], _, _, _, _, _ => by simp [combsGo]
  | c :: rest, ctype, strType, refs, first, hB => by
      simp only [combsGo]
      rw [← combinationGo_congr store e₁ e₂ B hg₁ hagree c strType refs hB]
      rw [combsGo_congr store e₁ e₂ B hg₁ hagree rest ctype strType _ false
        (le_trans (expandBound_mono store refs _
          (combinationGo_grow store e₁ hg₁ c strType refs)) hB)]

end

theorem combinationWhereClause_stable (store : List SmartPlaylist) :
    ∀ (B : Nat) (refs : Refs), expandBound store refs ≤ B →
      ∀ (f g : Nat), B < f → B < g →
      ∀ (c : RuleCombination) (strType : String),
        combinationWhereClause store f c strType refs =
          combinationWhereClause store g c strType refs := by
  intro B
  induction B using Nat.strong_induction_on with
  | _ B ih =>
      intro refs hB f g hf hg c strType
      obtain ⟨f', rfl⟩ : ∃ f', f = f' + 1 := ⟨f - 1, by omega⟩
      obtain ⟨g', rfl⟩ : ∃ g', g = g' + 1 := ⟨g - 1, by omega⟩
      simp only [combinationWhereClause]
      apply combinationGo_congr store _ _ (expandBound store refs)
        (fun p rfs => combinationWhereClause_grow store f' p.rules
          p.mediaType rfs)
        ?hagree c strType refs (le_refl _)
      intro p rfs hlt
      exact ih (expandBound store rfs) (by omega) rfs (le_refl _) f' g'
        (by omega) (by omega) p.rules p.mediaType

/-- C9: the recursive compile is bounded by the referenced-playlist set:
for every finite store - cyclic or self-referencing definitions included -
any two expansion budgets larger than the number of store playlists not yet
referenced produce the same result (the guarded recursion terminates after
boundedly many expansions), the referenced-playlist set only grows during
one compile, and a playlist whose file is already in the set is skipped
with the set unchanged rather than re-expanded. -/
theorem compile_cycle_guard_terminates :
    (∀ (store : List SmartPlaylist) (refs : Refs) (f g : Nat)
       (c : RuleCombination) (strType : String),
      expandBound store refs < f → expandBound store refs < g →
      combinationWhereClause store f c strType refs =
        combinationWhereClause store g c strType refs) ∧
    (∀ (store : List SmartPlaylist) (fuel : Nat) (c : RuleCombination)
       (strType : String) (refs : Refs),
      refs ⊆ (combinationWhereClause store fuel c strType refs).2) ∧
    (∀ (store : List SmartPlaylist)
       (e : SmartPlaylist → Refs → String × Refs) (r : Rule)
       (strType : String) (refs : Refs),
      getPlaylistByName store (r.parameter.headD "") strType ∈ refs →
      playlistRuleClauseGo store e r strType refs = ("", refs)) := by
  refine ⟨?_, ?_, ?_⟩
  · intro store refs f g c strType hf hg
    exact combinationWhereClause_stable store (expandBound store refs) refs
      (le_refl _) f g hf hg c strType
  · exact combinationWhereClause_grow
  · intro store e r strType refs hmem
    unfold playlistRuleClauseGo
    have hcond : (getPlaylistByName store (r.parameter.headD "") strType
        != "" &&
        !(refs.contains (getPlaylistByName store (r.parameter.headD "")
          strType))) = false := by
      simp only [Bool.and_eq_false_imp, bne_iff_ne, ne_eq, Bool.not_eq_true',
        Bool.not_eq_false']
      intro _
      exact List.elem_iff.mpr hmem
    simp only [hcond, Bool.false_eq_true, if_false]

/-- C9 witness: stability of the compile over the two-playlist cyclic store
at budgets 3 and 7, both above the bound of 2. -/
theorem compile_cycle_guard_terminates_witness :
    expandBound cycStore [] < 3 ∧ expandBound cycStore [] < 7 ∧
    combinationWhereClause cycStore 3 refCycACombination "songs" [] =
      combinationWhereClause cycStore 7 refCycACombination "songs" [] :=
  ⟨by decide, by decide,
    compile_cycle_guard_terminates.1 cycStore [] 3 7 refCycACombination
      "songs" (by decide) (by decide)⟩

end SmartPlaylistSpec
